import Mathlib

/-!
Shallow embedding of the lead-generation pipeline core
(`src/leads/lead_validator.py`, `src/leads/sqlite_manager.py`,
`src/leads/pipeline_orchestrator.py`) and proofs of the specification
claims about it.

External collaborators (the `email_validator` and `phonenumbers` libraries,
HTTP fetches via `requests`, DNS resolution via `socket`, the Google Places
scraper and the CSV exporter) are modelled as oracle fields of environment
structures; everything the repository's own code computes is translated
directly.
-/

set_option maxHeartbeats 1000000

namespace LeadsGen

/-! ## Lead records (Python dicts flowing through the validator) -/

/-- Result record of the `email_validator` library's `validate_email` call
(fields read at `lead_validator.py:133-140`). -/
structure LibEmailResult where
  email : String
  lokal : String
  domain : String
  ascii_email : String
  ascii_local : String
  ascii_domain : String
deriving Repr, DecidableEq

/-- Details dict returned by `_validate_email` (`lead_validator.py:126-152`). -/
structure EmailDetails where
  error : Option String := none
  normalized_email : Option String := none
  local_part : Option String := none
  domain : Option String := none
  ascii_email : Option String := none
  ascii_local : Option String := none
  ascii_domain : Option String := none
  domain_exists : Option Bool := none
deriving Repr, DecidableEq

/-- Parsed phone data supplied by the `phonenumbers` library
(`lead_validator.py:163-187`): validity classification and the formatted
representations the code extracts. -/
structure ParsedPhone where
  is_valid : Bool
  is_possible : Bool
  international_format : String
  national_format : String
  e164_format : String
  country_code : Nat
  national_number : Nat
  number_type : String
deriving Repr, DecidableEq

/-- Details dict returned by `_validate_phone` (`lead_validator.py:170-196`). -/
structure PhoneDetails where
  error : Option String := none
  international_format : Option String := none
  national_format : Option String := none
  e164_format : Option String := none
  country_code : Option Nat := none
  national_number : Option Nat := none
  number_type : Option String := none
  is_possible : Option Bool := none
deriving Repr, DecidableEq

/-- Response record of the `requests` session `get` call
(fields read at `_check_website_async`, `lead_validator.py:271-277`). -/
structure HttpResponse where
  status_code : Nat
  final_url : String
  content_type : String
  server : String
  response_time : Nat
deriving Repr, DecidableEq

/-- Details dict built by `_check_website_async` / `_validate_company_async`
(`lead_validator.py:236-252, 271-293`). -/
structure CompanyDetails where
  error : Option String := none
  status_code : Option Nat := none
  final_url : Option String := none
  content_type : Option String := none
  server : Option String := none
  response_time : Option Nat := none
  page_title : Option String := none
  has_company_name : Option Bool := none
  company_name_length : Option Nat := none
deriving Repr, DecidableEq

/-- A lead record: the Python dict a single lead travels in.  Optional keys
are `Option`; the validation annotations written by
`_validate_single_lead_async` start out absent (`none` / `false`). -/
structure LeadRec where
  id : Nat := 0
  campaign_id : String := ""
  name : Option String := none
  email : Option String := none
  phone : Option String := none
  country : Option String := none
  website : Option String := none
  status : String := "new"
  email_valid : Bool := false
  phone_valid : Bool := false
  company_valid : Bool := false
  is_validated : Bool := false
  validation_score : Option Nat := none
  validation_error : Option String := none
  email_validation_details : Option EmailDetails := none
  phone_validation_details : Option PhoneDetails := none
  company_validation_details : Option CompanyDetails := none
deriving Repr, DecidableEq

/-- Oracle environment for the validator's external collaborators.
`libValidate` is `email_validator.validate_email` (error value = the
`EmailNotValidError` message), `dnsResolve` is `socket.gethostbyname`
success, `parsePhone` is the `phonenumbers` parse + classification,
`httpGet` is the `requests` fetch (error value = the caught exception's
detail message), `pageTitle` is the `<title>` extraction from the response
body, and `inject i` is an exception escaping the i-th lead's asyncio task
(the adversarial case of spec property P3; all exceptions inside the three
field validators are caught locally, so only task-level failures reach
`asyncio.gather`). -/
structure ValidatorEnv where
  libValidate : String → Except String LibEmailResult
  dnsResolve : String → Bool
  parsePhone : String → String → Except String ParsedPhone
  httpGet : String → Except String HttpResponse
  pageTitle : HttpResponse → Option String
  inject : Nat → Option String

/-! ## Email validation (`_validate_email`, `lead_validator.py:116-152`) -/

/-- Python `str` whitespace as stripped by `str.strip()`. -/
def isPySpace (c : Char) : Bool :=
  c = ' ' || c = '\t' || c = '\n' || c = '\r' || c = '\x0b' || c = '\x0c'

/-- Python `str.strip()` on a character list. -/
def pyStripChars (cs : List Char) : List Char :=
  ((cs.dropWhile isPySpace).reverse.dropWhile isPySpace).reverse

/-- ASCII lowercasing of one character (Python `str.lower()` restricted to
the ASCII range the email regex admits). -/
def lowerAscii (c : Char) : Char :=
  if 'A' ≤ c ∧ c ≤ 'Z' then Char.ofNat (c.toNat + 32) else c

/-- Character class `[a-zA-Z0-9._%+-]` of the local part of the
email regex at `lead_validator.py:124`. -/
def isLocalChar (c : Char) : Bool :=
  (c.isAlpha && c.toNat < 128) || c.isDigit || c = '.' || c = '_' || c = '%' || c = '+' || c = '-'

/-- Character class `[a-zA-Z0-9.-]` of the domain part of the regex. -/
def isDomainChar (c : Char) : Bool :=
  (c.isAlpha && c.toNat < 128) || c.isDigit || c = '.' || c = '-'

/-- Character class `[a-zA-Z]`. -/
def isAsciiAlphaChar (c : Char) : Bool :=
  c.isAlpha && c.toNat < 128

/-- The anchored regex `^[a-zA-Z0-9._%+-]+@[a-zA-Z0-9.-]+\.[a-zA-Z]{2,}$`
of `lead_validator.py:124`, decided directly: neither character class
admits `@`, so a match splits the string at its unique `@` into a
non-empty local part and a domain; anchoring at `$` forces the
`[a-zA-Z]{2,}` group to be the segment after the domain's last dot, with a
non-empty run of domain characters before that dot. -/
def matchesEmailPattern (cs : List Char) : Bool :=
  match cs.splitOn '@' with
  | [lokal, domain] =>
    let revd := domain.reverse
    let tld := revd.takeWhile (fun c => c ≠ '.')
    let beforeDot := domain.take (domain.length - tld.length - 1)
    !lokal.isEmpty && lokal.all isLocalChar &&
      decide (tld.length < domain.length) &&
      decide (2 ≤ tld.length) && tld.all isAsciiAlphaChar &&
      !beforeDot.isEmpty && beforeDot.all isDomainChar
  | _ => false

/-- Python `email.strip().lower()` at `lead_validator.py:121`, as a
character list. -/
def normalizeEmail (s : String) : List Char :=
  (pyStripChars s.toList).map lowerAscii

/-- `_validate_email` (`lead_validator.py:116-152`) with the number of DNS
lookups performed as an extra component: `_check_domain_exists` (one
`socket.gethostbyname` call) is reached only inside the `try` block after
the regex format check and the library validation both succeed.  Its
result is stored in the details but does not affect the returned flag. -/
def validate_email (env : ValidatorEnv) (email : Option String) :
    Bool × Option EmailDetails × Nat :=
  match email with
  | none => (false, none, 0)
  | some s =>
    if s.toList.isEmpty then (false, none, 0)
    else
      let e := normalizeEmail s
      if ¬ matchesEmailPattern e then
        (false, some { error := some "Invalid email format" }, 0)
      else
        match env.libValidate (String.mk e) with
        | .error msg => (false, some { error := some msg }, 0)
        | .ok r =>
          let domain_ok := env.dnsResolve r.domain
          (true, some { normalized_email := some r.email,
                        local_part := some r.lokal,
                        domain := some r.domain,
                        ascii_email := some r.ascii_email,
                        ascii_local := some r.ascii_local,
                        ascii_domain := some r.ascii_domain,
                        domain_exists := some domain_ok }, 1)

/-! ## Phone validation (`_validate_phone`, `lead_validator.py:154-199`) -/

/-- `_validate_phone`: parse via the `phonenumbers` oracle; validity
requires `is_valid_number` (not merely possible). -/
def validate_phone (env : ValidatorEnv) (phone : Option String)
    (country_code : String) : Bool × Option PhoneDetails :=
  match phone with
  | none => (false, none)
  | some s =>
    if s.toList.isEmpty then (false, none)
    else
      match env.parsePhone (String.mk (pyStripChars s.toList)) country_code with
      | .error msg => (false, some { error := some ("Parse error: " ++ msg) })
      | .ok p =>
        if p.is_valid then
          (true, some { international_format := some p.international_format,
                        national_format := some p.national_format,
                        e164_format := some p.e164_format,
                        country_code := some p.country_code,
                        national_number := some p.national_number,
                        number_type := some p.number_type,
                        is_possible := some p.is_possible })
        else
          (false, some { error := some "Invalid phone number",
                         is_possible := some p.is_possible })

/-! ## Company validation (`_validate_company_async` and
`_check_website_async`, `lead_validator.py:231-303`) -/

/-- `_check_website_async`: normalize the URL, fetch it, and accept any
final status code in [200, 400). -/
def check_website (env : ValidatorEnv) (website : String) :
    Bool × Option CompanyDetails :=
  if website.toList.isEmpty then (false, none)
  else
    let url :=
      if "http://".toList.isPrefixOf website.toList
          || "https://".toList.isPrefixOf website.toList then website
      else "https://" ++ website
    match env.httpGet url with
    | .error msg => (false, some { error := some msg })
    | .ok r =>
      let base : CompanyDetails :=
        { status_code := some r.status_code,
          final_url := some r.final_url,
          content_type := some r.content_type,
          server := some r.server,
          response_time := some r.response_time }
      if 200 ≤ r.status_code ∧ r.status_code < 400 then
        (true, some { base with page_title := env.pageTitle r })
      else
        (false, some base)

/-- `_validate_company_async`: prefer website reachability; fall back to
accepting a lead whose trimmed name is longer than 2 characters. -/
def validate_company (env : ValidatorEnv) (website : Option String)
    (company_name : Option String) : Bool × Option CompanyDetails :=
  let web := (website.getD "")
  let nm := (company_name.getD "")
  if web.toList.isEmpty && nm.toList.isEmpty then (false, none)
  else
    let wres := if web.toList.isEmpty then (false, none) else check_website env web
    let details := (wres.2).getD {}
    if wres.1 then (true, some details)
    else if ¬ nm.toList.isEmpty ∧ 2 < (pyStripChars nm.toList).length then
      (true, some { details with has_company_name := some true,
                                 company_name_length := some (pyStripChars nm.toList).length })
    else (false, some details)

/-! ## Single-lead validation (`_validate_single_lead_async`,
`lead_validator.py:80-114`) -/

/-- Dict truthiness of a details value: an absent/`None` details value and
the empty dict are both falsy, so the annotation key is written only for a
non-default details record (`if email_details:` etc. at
`lead_validator.py:92, 98, 107`). -/
def detailsOrNone {α : Type} [DecidableEq α] (dflt : α) (d : Option α) : Option α :=
  match d with
  | none => none
  | some v => if v = dflt then none else some v

/-- `_validate_single_lead_async` minus the semaphore/delay bookkeeping:
copy the lead, annotate the three validity flags and their details, set
`is_validated` and the 0-3 `validation_score`.  The Python
`lead.get('country', 'US')` default is modelled by `getD "US"`. -/
def validate_single_lead (env : ValidatorEnv) (lead : LeadRec) : LeadRec :=
  let er := validate_email env lead.email
  let pr := validate_phone env lead.phone (lead.country.getD "US")
  let cr := validate_company env lead.website lead.name
  { lead with
      email_valid := er.1,
      email_validation_details :=
        (detailsOrNone {} er.2.1).elim lead.email_validation_details some,
      phone_valid := pr.1,
      phone_validation_details :=
        (detailsOrNone {} pr.2).elim lead.phone_validation_details some,
      company_valid := cr.1,
      company_validation_details :=
        (detailsOrNone {} cr.2).elim lead.company_validation_details some,
      is_validated := true,
      validation_score :=
        some ((if er.1 then 1 else 0) + (if pr.1 then 1 else 0)
              + (if cr.1 then 1 else 0)) }

/-- Outcome of the i-th validation task as seen by `asyncio.gather(...,
return_exceptions=True)`: either the annotated lead or the escaped
exception's message. -/
def run_single_task (env : ValidatorEnv) (i : Nat) (lead : LeadRec) :
    Except String LeadRec :=
  match env.inject i with
  | some msg => .error msg
  | none => .ok (validate_single_lead env lead)

/-- The exception-handling loop of `validate_leads_batch`
(`lead_validator.py:52-66`): a failed task yields a copy of the original
lead with all three flags false and the exception message in
`validation_error`. -/
def handle_result (lead : LeadRec) (r : Except String LeadRec) : LeadRec :=
  match r with
  | .ok v => v
  | .error msg =>
    { lead with email_valid := false, phone_valid := false,
                company_valid := false, validation_error := some msg }

/-- `validate_leads_batch` (`lead_validator.py:32-78`): one task per lead,
gathered in input order, failures converted to annotated copies. -/
def validate_leads_batch (env : ValidatorEnv) (leads : List LeadRec) :
    List LeadRec :=
  (leads.mapIdx fun i lead => handle_result lead (run_single_task env i lead))

/-! ## Validation summary (`get_validation_summary`,
`lead_validator.py:317-353`) -/

/-- `round` to the nearest integer, ties to even — Python's built-in
rounding mode. -/
def pyRoundInt (q : ℚ) : ℤ :=
  let n := ⌊q⌋
  let frac := q - n
  if frac < 1/2 then n
  else if 1/2 < frac then n + 1
  else if n % 2 = 0 then n else n + 1

/-- Python `round(x, 2)`: round to two decimal places, ties to even.  The
source computes the score in binary floating point; this models the exact
decimal value (every comparison the claims rest on clears the rounding
boundary by margins far above double-precision error). -/
def pyRound2 (q : ℚ) : ℚ :=
  (pyRoundInt (q * 100) : ℚ) / 100

/-- `lead.get('validation_score', 0)` at `lead_validator.py:343`. -/
def scoreOf (lead : LeadRec) : Nat :=
  lead.validation_score.getD 0

/-- The `overall_quality_score` computed by `get_validation_summary`
(`lead_validator.py:342-345, 352`): sum of the per-lead scores over
3 x lead count, as a percentage rounded to two decimals. -/
def overall_quality_score (leads : List LeadRec) : ℚ :=
  let total := leads.length
  let total_validations := (leads.map scoreOf).sum
  let max_possible := total * 3
  let quality : ℚ :=
    if 0 < max_possible then
      (total_validations : ℚ) / (max_possible : ℚ) * 100
    else 0
  pyRound2 quality

/-- Per-field aggregate dicts of `get_validation_summary`
(`lead_validator.py:324-340`); truthiness of `lead.get('email')` etc. is
non-`None` and non-empty. -/
structure ValidationSummary where
  total_leads : Nat
  total_with_email : Nat
  valid_emails : Nat
  invalid_emails : Nat
  total_with_phone : Nat
  valid_phones : Nat
  invalid_phones : Nat
  total_with_website : Nat
  valid_companies : Nat
  invalid_companies : Nat
  quality : ℚ
deriving Repr, DecidableEq

/-- Truthiness of an optional string field. -/
def fieldTruthy (s : Option String) : Bool :=
  match s with
  | none => false
  | some v => !v.toList.isEmpty

/-- `get_validation_summary` (non-empty input; the empty input returns the
empty dict at `lead_validator.py:319-320` and is modelled by the caller
never reading these aggregates there). -/
def get_validation_summary (leads : List LeadRec) : ValidationSummary :=
  { total_leads := leads.length,
    total_with_email := (leads.filter fun l => fieldTruthy l.email).length,
    valid_emails := (leads.filter fun l => l.email_valid).length,
    invalid_emails :=
      (leads.filter fun l => fieldTruthy l.email && !l.email_valid).length,
    total_with_phone := (leads.filter fun l => fieldTruthy l.phone).length,
    valid_phones := (leads.filter fun l => l.phone_valid).length,
    invalid_phones :=
      (leads.filter fun l => fieldTruthy l.phone && !l.phone_valid).length,
    total_with_website := (leads.filter fun l => fieldTruthy l.website).length,
    valid_companies := (leads.filter fun l => l.company_valid).length,
    invalid_companies := (leads.filter fun l => !l.company_valid).length,
    quality := overall_quality_score leads }

/-! ## Persistent Store (`src/leads/sqlite_manager.py`)

Timestamps are modelled by a logical clock `Store.clock` (one tick per
`CURRENT_TIMESTAMP`-writing statement batch); lead ids by the
`AUTOINCREMENT` counter `Store.nextLeadId`, so `Store.leads` is kept in
ascending id order and `ORDER BY id` returns rows in list order. -/

/-- A row of the `campaigns` table (schema at `sqlite_manager.py:30-49`). -/
structure CampaignRow where
  id : String
  name : String
  business_type : String
  location : String
  max_results : Nat
  status : String := "pending"
  created_at : Nat := 0
  updated_at : Nat := 0
  completed_at : Option Nat := none
  from_email : Option String := none
  total_leads : Nat := 0
  validated_leads : Nat := 0
  enriched_leads : Nat := 0
  personalized_leads : Nat := 0
  error_message : Option String := none
deriving Repr, DecidableEq

/-- The mock LinkedIn payload built by `_enrich_linkedin_profiles`
(`pipeline_orchestrator.py:237-244`); the constant confidence score and
null profile URL are folded into the record shape. -/
structure LinkedinProfile where
  inferred : Bool
  company_name : String
  industry : Option String
  location : Option String
deriving Repr, DecidableEq

/-- The mock research payload built by `_research_companies`
(`pipeline_orchestrator.py:288-295`); the fixed challenge/news lists and
the timestamp are omitted as constants. -/
structure ResearchData where
  company_overview : String
  industry_insights : String
deriving Repr, DecidableEq

/-- The mock personalization payload built by `_personalize_messages`
(`pipeline_orchestrator.py:337-356`). -/
structure PersonalizedMessage where
  subject : String
  company_name : Option String
  location : Option String
  industry : Option String
deriving Repr, DecidableEq

/-- A row of the `leads` table (schema at `sqlite_manager.py:52-82`),
restricted to the columns the pipeline stages read or write. -/
structure LeadRow where
  id : Nat
  campaign_id : String
  name : String := ""
  address : Option String := none
  city : Option String := none
  country : Option String := none
  phone : Option String := none
  email : Option String := none
  website : Option String := none
  category : Option String := none
  status : String := "new"
  email_valid : Bool := false
  phone_valid : Bool := false
  company_valid : Bool := false
  linkedin_profile : Option LinkedinProfile := none
  research_data : Option ResearchData := none
  personalized_message : Option PersonalizedMessage := none
  created_at : Nat := 0
  updated_at : Nat := 0
deriving Repr, DecidableEq

/-- A row of the `pipeline_runs` table (schema at
`sqlite_manager.py:85-100`). -/
structure RunRow where
  campaign_id : String
  stage : String
  status : String
  started_at : Nat
  completed_at : Option Nat
  duration_seconds : Option Nat
  processed_count : Nat
  success_count : Nat
  error_count : Nat
  error_message : Option String
deriving Repr, DecidableEq

/-- A business record returned by the places-search collaborator
(`google_places_scraper.search_businesses`), with the fields
`insert_leads` stores (`sqlite_manager.py:181-198`). -/
structure Business where
  name : String := ""
  address : Option String := none
  city : Option String := none
  country : Option String := none
  phone : Option String := none
  email : Option String := none
  website : Option String := none
  category : Option String := none
deriving Repr, DecidableEq

/-- The whole SQLite database. -/
structure Store where
  campaigns : List CampaignRow := []
  leads : List LeadRow := []
  runs : List RunRow := []
  nextLeadId : Nat := 1
  clock : Nat := 0
deriving Repr, DecidableEq

/-- The update dict passed to `update_campaign`: the orchestrator only ever
writes these keys (`pipeline_orchestrator.py:61, 73, 103-106, 124-127,
200, 253, 365`), so the dynamic `SET` clause is modelled by one optional
field per such column. -/
structure CampaignPatch where
  status : Option String := none
  error_message : Option String := none
  completed_at : Option Nat := none
  total_leads : Option Nat := none
  validated_leads : Option Nat := none
  enriched_leads : Option Nat := none
  personalized_leads : Option Nat := none
deriving Repr, DecidableEq

/-- Python `if not updates: return` emptiness test. -/
def CampaignPatch.isEmpty (p : CampaignPatch) : Bool :=
  p.status.isNone && p.error_message.isNone && p.completed_at.isNone &&
    p.total_leads.isNone && p.validated_leads.isNone &&
    p.enriched_leads.isNone && p.personalized_leads.isNone

/-- Apply a campaign update dict to a row, bumping `updated_at`
(`sqlite_manager.py:140-152`). -/
def applyCampaignPatch (p : CampaignPatch) (clock : Nat) (c : CampaignRow) :
    CampaignRow :=
  { c with
      status := p.status.getD c.status,
      error_message := (p.error_message.map some).getD c.error_message,
      completed_at := (p.completed_at.map some).getD c.completed_at,
      total_leads := p.total_leads.getD c.total_leads,
      validated_leads := p.validated_leads.getD c.validated_leads,
      enriched_leads := p.enriched_leads.getD c.enriched_leads,
      personalized_leads := p.personalized_leads.getD c.personalized_leads,
      updated_at := clock }

/-- The fresh row `create_campaign` inserts (`sqlite_manager.py:116-129`). -/
def mkCampaignRow (clock : Nat) (cid : String)
    (name business_type location : String) (max_results : Nat)
    (from_email : Option String) : CampaignRow :=
  { id := cid, name := name, business_type := business_type,
    location := location, max_results := max_results,
    from_email := from_email, status := "pending",
    created_at := clock, updated_at := clock }

/-- `create_campaign` (`sqlite_manager.py:111-133`): insert one row with
status `'pending'`.  The timestamp-derived id the Python code generates
when the dict has no `'id'` key is passed in by the caller's environment. -/
def create_campaign (st : Store) (cid : String) (name business_type location : String)
    (max_results : Nat) (from_email : Option String) : Store :=
  { st with
      campaigns := st.campaigns ++
        [mkCampaignRow st.clock cid name business_type location max_results from_email],
      clock := st.clock + 1 }

/-- `update_campaign` (`sqlite_manager.py:135-155`): dynamic `UPDATE ...
WHERE id = ?`, always bumping `updated_at`. -/
def update_campaign (st : Store) (cid : String) (p : CampaignPatch) : Store :=
  if p.isEmpty then st
  else
    { st with
        campaigns := st.campaigns.map fun c =>
          if c.id = cid then applyCampaignPatch p st.clock c else c,
        clock := st.clock + 1 }

/-- `get_campaign` (`sqlite_manager.py:157-166`). -/
def get_campaign (st : Store) (cid : String) : Option CampaignRow :=
  st.campaigns.find? fun c => c.id = cid

/-- `insert_leads` (`sqlite_manager.py:168-202`): one `INSERT` per
business, ids assigned by `AUTOINCREMENT`, status `'new'`. -/
def insert_leads (st : Store) (cid : String) (businesses : List Business) : Store :=
  if businesses.isEmpty then st
  else
    { st with
        leads := st.leads ++
          (businesses.mapIdx fun i b =>
            { id := st.nextLeadId + i, campaign_id := cid, name := b.name,
              address := b.address, city := b.city, country := b.country,
              phone := b.phone, email := b.email, website := b.website,
              category := b.category, status := "new",
              created_at := st.clock, updated_at := st.clock }),
        nextLeadId := st.nextLeadId + businesses.length,
        clock := st.clock + 1 }

/-- `get_leads_by_campaign` (`sqlite_manager.py:236-267`): filter by
campaign and optionally by status (a `None` or empty status string is
falsy and disables the filter), ordered by id — which is list order since
`Store.leads` is kept id-ascending. -/
def get_leads_by_campaign (st : Store) (cid : String)
    (status : Option String) : List LeadRow :=
  if (status.getD "").toList.isEmpty then
    st.leads.filter fun l => l.campaign_id = cid
  else
    st.leads.filter fun l => l.campaign_id = cid && l.status = status.getD ""

/-- An element of the updates list passed to `update_leads_batch`: the
stage functions only ever write these keys
(`pipeline_orchestrator.py:188-194, 246-250, 297-301, 358-362`). -/
structure LeadPatch where
  id : Option Nat := none
  status : Option String := none
  email_valid : Option Bool := none
  phone_valid : Option Bool := none
  company_valid : Option Bool := none
  linkedin_profile : Option LinkedinProfile := none
  research_data : Option ResearchData := none
  personalized_message : Option PersonalizedMessage := none
deriving Repr, DecidableEq

/-- Python `if processed_updates:` — true when the dict still carries a
column after `'id'` was popped. -/
def LeadPatch.hasFields (u : LeadPatch) : Bool :=
  u.status.isSome || u.email_valid.isSome || u.phone_valid.isSome ||
    u.company_valid.isSome || u.linkedin_profile.isSome ||
    u.research_data.isSome || u.personalized_message.isSome

/-- Apply one update dict's columns to a matching row, bumping
`updated_at` (`sqlite_manager.py:312-321`). -/
def applyLeadPatch (u : LeadPatch) (clock : Nat) (l : LeadRow) : LeadRow :=
  { l with
      status := u.status.getD l.status,
      email_valid := u.email_valid.getD l.email_valid,
      phone_valid := u.phone_valid.getD l.phone_valid,
      company_valid := u.company_valid.getD l.company_valid,
      linkedin_profile := (u.linkedin_profile.map some).getD l.linkedin_profile,
      research_data := (u.research_data.map some).getD l.research_data,
      personalized_message :=
        (u.personalized_message.map some).getD l.personalized_message,
      updated_at := clock }

/-- Effect of one element of the updates list on one stored row
(`sqlite_manager.py:297-321`): an entry without an `'id'` key (or the
falsy id 0) is skipped, an entry with no remaining columns is skipped, and
the `UPDATE` touches only the row with that id in the given campaign. -/
def applyLeadUpdate (cid : String) (clock : Nat) (u : LeadPatch)
    (l : LeadRow) : LeadRow :=
  match u.id with
  | none => l
  | some i =>
    if i = 0 then l
    else if ¬ u.hasFields then l
    else if l.id = i ∧ l.campaign_id = cid then applyLeadPatch u clock l
    else l

/-- `update_leads_batch` (`sqlite_manager.py:291-325`): sequentially apply
each update dict inside one connection. -/
def update_leads_batch (st : Store) (cid : String)
    (updates : List LeadPatch) : Store :=
  if updates.isEmpty then st
  else
    { st with
        leads := updates.foldl
          (fun ls u => ls.map (applyLeadUpdate cid st.clock u)) st.leads,
        clock := st.clock + 1 }

/-- The audit row `record_pipeline_run` inserts
(`sqlite_manager.py:332-341`); `completed_at` is filled only for status
`'completed'`. -/
def mkRunRow (clock : Nat) (cid stage status : String)
    (duration : Option Nat) (processed success errors : Nat)
    (error_message : Option String) : RunRow :=
  { campaign_id := cid, stage := stage, status := status,
    started_at := clock,
    completed_at := if status = "completed" then some clock else none,
    duration_seconds := duration, processed_count := processed,
    success_count := success, error_count := errors,
    error_message := error_message }

/-- `record_pipeline_run` (`sqlite_manager.py:327-342`): append one audit
row. -/
def record_pipeline_run (st : Store) (cid stage status : String)
    (duration : Option Nat) (processed success errors : Nat)
    (error_message : Option String) : Store :=
  { st with
      runs := st.runs ++
        [mkRunRow st.clock cid stage status duration processed success errors error_message],
      clock := st.clock + 1 }

/-! ## Pipeline Orchestrator (`src/leads/pipeline_orchestrator.py`) -/

/-- Stage enable flags of `LeadPipelineConfig` read by
`run_complete_pipeline` (`pipeline_orchestrator.py:76-93`). -/
structure PipelineConfig where
  enable_validation : Bool := true
  enable_linkedin_enrichment : Bool := true
  enable_research : Bool := true
  enable_personalization : Bool := true
deriving Repr, DecidableEq

/-- The three validity flags the batch validator reports for one lead. -/
structure FlagTriple where
  email : Bool := false
  phone : Bool := false
  company : Bool := false
deriving Repr, DecidableEq

/-- Oracle environment for one `run_complete_pipeline` call.  `freshCid`
is the timestamp-derived campaign id `create_campaign` generates;
`scrape` the Google Places collaborator's outcome; `leadFlags` abstracts,
by lead id, the flags `validate_leads_batch` (modelled in full above)
annotates; `validatorError` an exception escaping the validation stage's
collaborator call; `exportResult` the CSV exporter's outcome. -/
structure RunEnv where
  freshCid : String
  scrape : Except String (List Business)
  leadFlags : Nat → FlagTriple
  validatorError : Option String := none
  exportResult : Except String String

/-- Python `str(None)` as rendered into an f-string when a present dict
key holds `None`. -/
def pyStr (s : Option String) : String :=
  match s with
  | some v => v
  | none => "None"

/-- Result of one stage function: the store afterwards, the message of a
re-raised exception if any, and whether the stage ran past its
empty-lead-set no-op (instrumentation for the audit-row claims). -/
structure StageOut where
  store : Store
  error : Option String := none
  attempted : Bool := false
deriving Repr

/-- The read set of `_validate_leads` (`pipeline_orchestrator.py:175`):
`get_leads_by_campaign(campaign_id)` with no status filter. -/
def validationReadSet (st : Store) (cid : String) : List LeadRow :=
  get_leads_by_campaign st cid none

/-- The read set of `_enrich_linkedin_profiles`
(`pipeline_orchestrator.py:226`): leads with status `'validated'`. -/
def enrichmentReadSet (st : Store) (cid : String) : List LeadRow :=
  get_leads_by_campaign st cid (some "validated")

/-- The read set of `_research_companies`
(`pipeline_orchestrator.py:278`): leads with status `'enriched'`. -/
def researchReadSet (st : Store) (cid : String) : List LeadRow :=
  get_leads_by_campaign st cid (some "enriched")

/-- The read set of `_personalize_messages`
(`pipeline_orchestrator.py:328`): leads with status `'researched'`. -/
def personalizationReadSet (st : Store) (cid : String) : List LeadRow :=
  get_leads_by_campaign st cid (some "researched")

/-- `_scrape_businesses` (`pipeline_orchestrator.py:144-171`): invoke the
collaborator and record one `scraping` audit row either way. -/
def scrape_businesses (env : RunEnv) (cid : String) (st : Store) :
    Store × Except String (List Business) :=
  match env.scrape with
  | .ok bs =>
    (record_pipeline_run st cid "scraping" "completed" none bs.length bs.length 0 none,
     .ok bs)
  | .error e =>
    (record_pipeline_run st cid "scraping" "failed" none 0 0 0 (some e),
     .error e)

/-- `_validate_leads` (`pipeline_orchestrator.py:173-222`): read ALL the
campaign's leads (no status filter), batch-validate, write flags and
status `'validated'` back, update the campaign's `validated_leads`
counter, and record one `validation` audit row; on a collaborator
exception record a failed row and re-raise.  The measured wall-clock
`duration` float is modelled by the constant tick `some 1` here and in
the later stages; no claim inspects it. -/
def validate_leads (env : RunEnv) (cid : String) (st : Store) : StageOut :=
  let leads := validationReadSet st cid
  if leads.isEmpty then { store := st }
  else
    match env.validatorError with
    | some e =>
      { store := record_pipeline_run st cid "validation" "failed"
          (some 1) 0 0 0 (some e),
        error := some e, attempted := true }
    | none =>
      let updates := leads.map fun l =>
        ({ id := some l.id,
           email_valid := some (env.leadFlags l.id).email,
           phone_valid := some (env.leadFlags l.id).phone,
           company_valid := some (env.leadFlags l.id).company,
           status := some "validated" } : LeadPatch)
      let valid_leads := (leads.filter fun l => (env.leadFlags l.id).email).length
      let st1 := update_leads_batch st cid updates
      let st2 := update_campaign st1 cid { validated_leads := some valid_leads }
      { store := record_pipeline_run st2 cid "validation" "completed"
          (some 1) leads.length leads.length 0 none,
        attempted := true }

/-- `_enrich_linkedin_profiles` (`pipeline_orchestrator.py:224-274`): read
leads with status `'validated'`, attach the mock LinkedIn payload, set
status `'enriched'`, bump the campaign counter, record one audit row. -/
def enrich_linkedin_profiles (cid : String) (st : Store) : StageOut :=
  let leads := enrichmentReadSet st cid
  if leads.isEmpty then { store := st }
  else
    let updates := leads.map fun l =>
      ({ id := some l.id,
         linkedin_profile := some
           { inferred := true, company_name := l.name,
             industry := l.category, location := l.city },
         status := some "enriched" } : LeadPatch)
    let st1 := update_leads_batch st cid updates
    let st2 := update_campaign st1 cid { enriched_leads := some updates.length }
    { store := record_pipeline_run st2 cid "linkedin_enrichment" "completed"
        (some 1) leads.length updates.length 0 none,
      attempted := true }

/-- `_research_companies` (`pipeline_orchestrator.py:276-324`): read leads
with status `'enriched'`, attach the mock research payload, set status
`'researched'`, record one audit row (no campaign counter update). -/
def research_companies (cid : String) (st : Store) : StageOut :=
  let leads := researchReadSet st cid
  if leads.isEmpty then { store := st }
  else
    let updates := leads.map fun l =>
      ({ id := some l.id,
         research_data := some
           { company_overview := "Research overview for " ++ l.name,
             industry_insights := "Industry insights for " ++ pyStr l.category },
         status := some "researched" } : LeadPatch)
    let st1 := update_leads_batch st cid updates
    { store := record_pipeline_run st1 cid "research" "completed"
        (some 1) leads.length updates.length 0 none,
      attempted := true }

/-- `_personalize_messages` (`pipeline_orchestrator.py:326-386`): read
leads with status `'researched'`, attach the mock message payload, set
status `'personalized'`, bump the campaign counter, record one audit
row. -/
def personalize_messages (cid : String) (st : Store) : StageOut :=
  let leads := personalizationReadSet st cid
  if leads.isEmpty then { store := st }
  else
    let updates := leads.map fun l =>
      ({ id := some l.id,
         personalized_message := some
           { subject := "Partnership opportunity for " ++ l.name,
             company_name := some l.name, location := l.city,
             industry := l.category },
         status := some "personalized" } : LeadPatch)
    let st1 := update_leads_batch st cid updates
    let st2 := update_campaign st1 cid { personalized_leads := some updates.length }
    { store := record_pipeline_run st2 cid "personalization" "completed"
        (some 1) leads.length updates.length 0 none,
      attempted := true }

/-- `_export_results` (`pipeline_orchestrator.py:388-422`): read all the
campaign's leads, flatten, and hand them to the exporter collaborator.
Note that it records NO `pipeline_runs` row, and a raised exporter
exception propagates uncaught to the orchestrator's outer handler. -/
def export_results (env : RunEnv) (cid : String) (st : Store) :
    Store × Except String String :=
  let _leads := get_leads_by_campaign st cid none
  (st, env.exportResult)

/-- Summary dict returned by a successful `run_complete_pipeline`
(`pipeline_orchestrator.py:110-119`). -/
structure RunSummary where
  campaign_id : String
  status : String
  total_leads : Nat
  validated_leads : Nat
  enriched_leads : Nat
  csv_export : String
deriving Repr, DecidableEq

/-- The `valid_emails` aggregate of `get_campaign_stats`
(`sqlite_manager.py:358`). -/
def campaign_valid_emails (st : Store) (cid : String) : Nat :=
  (st.leads.filter fun l => l.campaign_id = cid ∧ l.email_valid).length

/-- The `enriched_leads` aggregate of `get_campaign_stats`
(`sqlite_manager.py:360`). -/
def campaign_enriched_count (st : Store) (cid : String) : Nat :=
  (st.leads.filter fun l => l.campaign_id = cid ∧ l.linkedin_profile.isSome).length

/-- The `except` handler of `run_complete_pipeline`
(`pipeline_orchestrator.py:121-129`): mark the campaign failed with the
error message, then re-raise. -/
def fail_run (cid : String) (e : String) (st : Store) : Store :=
  update_campaign st cid { status := some "failed", error_message := some e }

/-- Outcome of one `run_complete_pipeline` call: the returned summary or
raised error, the store afterwards, and the instrumented list of stage
attempts (a stage is attempted when its function runs past the
empty-lead-set no-op; export is attempted whenever reached). -/
structure RunOutcome where
  result : Except String RunSummary
  store : Store
  attempted : List String
deriving Repr

/-- Steps 2-7 of `run_complete_pipeline`
(`pipeline_orchestrator.py:70-119`), entered once the scrape returned a
non-empty business list: store the leads, run the gated stages, export,
and finish with the `completed` update; a stage error goes through the
`failed` handler and is re-raised.  `attempted` lists this tail's stage
attempts (the caller prepends `scraping`). -/
def run_after_scrape (cfg : PipelineConfig) (env : RunEnv) (cid : String)
    (businesses : List Business) (st0 : Store) : RunOutcome :=
  let st1 := insert_leads st0 cid businesses
  let st := update_campaign st1 cid { total_leads := some businesses.length }
  let vout :=
    if cfg.enable_validation then validate_leads env cid st
    else { store := st }
  let attV := if vout.attempted then ["validation"] else []
  match vout.error with
  | some e =>
    { result := .error e, store := fail_run cid e vout.store,
      attempted := attV }
  | none =>
    let eout :=
      if cfg.enable_linkedin_enrichment then
        enrich_linkedin_profiles cid vout.store
      else { store := vout.store }
    let attE := if eout.attempted then ["linkedin_enrichment"] else []
    let rout :=
      if cfg.enable_research then research_companies cid eout.store
      else { store := eout.store }
    let attR := if rout.attempted then ["research"] else []
    let pout :=
      if cfg.enable_personalization then personalize_messages cid rout.store
      else { store := rout.store }
    let attP := if pout.attempted then ["personalization"] else []
    let atts := attV ++ attE ++ attR ++ attP ++ ["export"]
    let exported := export_results env cid pout.store
    match exported.2 with
    | .error e =>
      { result := .error e, store := fail_run cid e exported.1,
        attempted := atts }
    | .ok csv_file =>
      let stE := exported.1
      let stF := update_campaign stE cid
        { status := some "completed", completed_at := some stE.clock }
      { result := .ok
          { campaign_id := cid, status := "completed",
            total_leads := businesses.length,
            validated_leads := campaign_valid_emails stE cid,
            enriched_leads := campaign_enriched_count stE cid,
            csv_export := csv_file },
        store := stF, attempted := atts }

/-- `run_complete_pipeline` (`pipeline_orchestrator.py:42-129`): create
the campaign, mark it running, then scrape → (validate) → (enrich) →
(research) → (personalize) → export, finishing with the `completed`
update or the `failed` handler. -/
def run_complete_pipeline (cfg : PipelineConfig) (env : RunEnv)
    (business_type location : String) (max_results : Nat)
    (campaign_name from_email : Option String) (st0 : Store) : RunOutcome :=
  let cid := env.freshCid
  let cname := campaign_name.getD (business_type ++ " in " ++ location)
  let st := create_campaign st0 cid cname business_type location max_results from_email
  let st := update_campaign st cid { status := some "running" }
  let scraped := scrape_businesses env cid st
  match scraped.2 with
  | .error e =>
    { result := .error e, store := fail_run cid e scraped.1,
      attempted := ["scraping"] }
  | .ok businesses =>
    if businesses.isEmpty then
      { result := .error "No businesses found",
        store := fail_run cid "No businesses found" scraped.1,
        attempted := ["scraping"] }
    else
      let out := run_after_scrape cfg env cid businesses scraped.1
      { out with attempted := "scraping" :: out.attempted }

/-! ## Concrete demonstration data used by witnesses -/

/-- A validator environment in which every external collaborator fails
benignly and no task-level exception escapes. -/
def demoVEnv : ValidatorEnv :=
  { libValidate := fun _ => .error "lib rejected",
    dnsResolve := fun _ => false,
    parsePhone := fun _ _ => .error "parse failed",
    httpGet := fun _ => .error "Connection failed",
    pageTitle := fun _ => none,
    inject := fun _ => none }

/-- `demoVEnv` with an exception escaping the validation task of index 1. -/
def demoVEnvInj : ValidatorEnv :=
  { demoVEnv with inject := fun j => if j = 1 then some "boom" else none }

/-- Two benign lead records for batch-validation witnesses. -/
def demoLeads : List LeadRec :=
  [{ id := 1, campaign_id := "c", name := some "Alpha Cafe",
     email := some "a@b.co", phone := some "555-0100" },
   { id := 2, campaign_id := "c", name := some "Beta Bar",
     email := some "not-an-email" }]

/-- The status/completion projection of the campaign row C7 tracks. -/
def campaignPhase (st : Store) (cid : String) :
    Option (String × Option Nat) :=
  (get_campaign st cid).map fun c => (c.status, c.completed_at)

/-- The status/error-message projection of a campaign row (what Scenario B
inspects). -/
def campaignErrView (st : Store) (cid : String) :
    Option (String × Option String) :=
  (get_campaign st cid).map fun c => (c.status, c.error_message)

/-- `Except.ok` recognizer for concrete outcome checks. -/
def resultIsOk {ε α : Type} (r : Except ε α) : Bool :=
  match r with
  | .ok _ => true
  | .error _ => false

/-- A store holding one campaign `c` with leads in two different statuses
and one lead of a foreign campaign `d`. -/
def demoStore : Store :=
  { campaigns := [{ id := "c", name := "demo", business_type := "cafes",
                    location := "Seattle", max_results := 5, status := "running" }],
    leads := [{ id := 1, campaign_id := "c", name := "Alpha Cafe" },
              { id := 2, campaign_id := "c", name := "Beta Bar",
                status := "validated" },
              { id := 3, campaign_id := "d", name := "Gamma Gym" }],
    runs := [], nextLeadId := 4, clock := 7 }

/-- A run environment whose collaborators all succeed. -/
def demoRunEnv : RunEnv :=
  { freshCid := "campaign_x",
    scrape := .ok [{ name := "Alpha Cafe", city := some "Seattle",
                     category := some "cafe", email := some "a@b.co" }],
    leadFlags := fun _ => { email := true, phone := true, company := true },
    validatorError := none,
    exportResult := .ok "data/out.csv" }

/-- A run environment whose places search returns no businesses. -/
def envEmptyScrape : RunEnv :=
  { freshCid := "campaign_x",
    scrape := .ok [],
    leadFlags := fun _ => {},
    validatorError := none,
    exportResult := .ok "data/out.csv" }

/-- The default configuration: every optional stage enabled. -/
def cfgAll : PipelineConfig := {}

/-- Number of true validity flags on a lead (the value
`_validate_single_lead_async` stores as `validation_score`). -/
def flagCount (l : LeadRec) : Nat :=
  (if l.email_valid then 1 else 0) + (if l.phone_valid then 1 else 0) +
    (if l.company_valid then 1 else 0)

/-- All three validity flags true. -/
def flagsAllTrue (l : LeadRec) : Bool :=
  l.email_valid && l.phone_valid && l.company_valid

/-- A lead whose stored `validation_score` agrees with its flags — true of
every record the batch validator emits. -/
def ScoreConsistent (l : LeadRec) : Prop :=
  scoreOf l = flagCount l

/-- A lead with all three checks passed. -/
def fullLead : LeadRec :=
  { email_valid := true, phone_valid := true, company_valid := true,
    is_validated := true, validation_score := some 3 }

/-- A lead with two of three checks passed. -/
def partialLead : LeadRec :=
  { email_valid := true, phone_valid := true, company_valid := false,
    is_validated := true, validation_score := some 2 }

/-- 6666 fully valid leads and one lead with a failed company check:
20000 of the 20001 possible validations passed. -/
def c8leads : List LeadRec :=
  List.replicate 6666 fullLead ++ [partialLead]


/-! ## Store helper lemmas -/

theorem foldl_map_length {α β : Type} (g : β → α → α) (us : List β)
    (ls : List α) :
    (us.foldl (fun acc u => acc.map (g u)) ls).length = ls.length := by
  induction us generalizing ls with
  | nil => rfl
  | cons u rest ih => simp [ih]

theorem foldl_map_get {α β : Type} (g : β → α → α) (us : List β)
    (ls : List α) (k : Nat) (h : k < ls.length)
    (h' : k < (us.foldl (fun acc u => acc.map (g u)) ls).length) :
    (us.foldl (fun acc u => acc.map (g u)) ls).get ⟨k, h'⟩ =
      us.foldl (fun x u => g u x) (ls.get ⟨k, h⟩) := by
  induction us generalizing ls with
  | nil => rfl
  | cons u rest ih =>
    have hm : k < (ls.map (g u)).length := by simpa using h
    have := ih (ls.map (g u)) hm (by simpa using h')
    simpa [List.get_map] using this

theorem foldl_fixed {α β : Type} (g : β → α → α) (us : List β) (x : α)
    (h : ∀ u ∈ us, g u x = x) :
    us.foldl (fun y u => g u y) x = x := by
  induction us with
  | nil => rfl
  | cons u rest ih =>
    have hu := h u (by simp)
    simp only [List.foldl_cons, hu]
    exact ih fun v hv => h v (by simp [hv])

/-! ## Effect lemmas for the store operations -/

@[simp] theorem runs_create_campaign (st : Store) (cid n b lo : String)
    (m : Nat) (fe : Option String) :
    (create_campaign st cid n b lo m fe).runs = st.runs := rfl

@[simp] theorem runs_update_campaign (st : Store) (cid : String)
    (p : CampaignPatch) : (update_campaign st cid p).runs = st.runs := by
  unfold update_campaign
  split <;> rfl

@[simp] theorem runs_insert_leads (st : Store) (cid : String)
    (bs : List Business) : (insert_leads st cid bs).runs = st.runs := by
  unfold insert_leads
  split <;> rfl

@[simp] theorem runs_update_leads_batch (st : Store) (cid : String)
    (us : List LeadPatch) :
    (update_leads_batch st cid us).runs = st.runs := by
  unfold update_leads_batch
  split <;> rfl

@[simp] theorem runs_record_pipeline_run (st : Store)
    (cid stg sta : String) (d : Option Nat) (p s e : Nat)
    (m : Option String) :
    (record_pipeline_run st cid stg sta d p s e m).runs =
      st.runs ++ [mkRunRow st.clock cid stg sta d p s e m] := rfl

@[simp] theorem runs_fail_run (cid e : String) (st : Store) :
    (fail_run cid e st).runs = st.runs := by
  unfold fail_run
  simp

@[simp] theorem mkRunRow_stage (clock : Nat) (cid stg sta : String)
    (d : Option Nat) (p s e : Nat) (m : Option String) :
    (mkRunRow clock cid stg sta d p s e m).stage = stg := rfl

@[simp] theorem campaigns_record_pipeline_run (st : Store)
    (cid stg sta : String) (d : Option Nat) (p s e : Nat)
    (m : Option String) :
    (record_pipeline_run st cid stg sta d p s e m).campaigns =
      st.campaigns := rfl

@[simp] theorem campaigns_insert_leads (st : Store) (cid : String)
    (bs : List Business) :
    (insert_leads st cid bs).campaigns = st.campaigns := by
  unfold insert_leads
  split <;> rfl

@[simp] theorem campaigns_update_leads_batch (st : Store) (cid : String)
    (us : List LeadPatch) :
    (update_leads_batch st cid us).campaigns = st.campaigns := by
  unfold update_leads_batch
  split <;> rfl

@[simp] theorem campaigns_length_create_campaign (st : Store)
    (cid n b lo : String) (m : Nat) (fe : Option String) :
    (create_campaign st cid n b lo m fe).campaigns.length =
      st.campaigns.length + 1 := by
  unfold create_campaign
  simp

@[simp] theorem campaigns_length_update_campaign (st : Store)
    (cid : String) (p : CampaignPatch) :
    (update_campaign st cid p).campaigns.length = st.campaigns.length := by
  unfold update_campaign
  split <;> simp

@[simp] theorem campaigns_length_fail_run (cid e : String) (st : Store) :
    (fail_run cid e st).campaigns.length = st.campaigns.length := by
  unfold fail_run
  simp

@[simp] theorem get_campaign_record_pipeline_run (st : Store)
    (cid' cid stg sta : String) (d : Option Nat) (p s e : Nat)
    (m : Option String) :
    get_campaign (record_pipeline_run st cid stg sta d p s e m) cid' =
      get_campaign st cid' := rfl

@[simp] theorem get_campaign_insert_leads (st : Store) (cid' cid : String)
    (bs : List Business) :
    get_campaign (insert_leads st cid bs) cid' = get_campaign st cid' := by
  unfold insert_leads get_campaign
  split <;> rfl

@[simp] theorem get_campaign_update_leads_batch (st : Store)
    (cid' cid : String) (us : List LeadPatch) :
    get_campaign (update_leads_batch st cid us) cid' =
      get_campaign st cid' := by
  unfold update_leads_batch get_campaign
  split <;> rfl

theorem find?_map_update (l : List CampaignRow) (cid : String)
    (f : CampaignRow → CampaignRow) (hf : ∀ c, (f c).id = c.id) :
    ((l.map fun c => if c.id = cid then f c else c).find?
        fun c => c.id = cid) =
      (l.find? fun c => c.id = cid).map f := by
  induction l with
  | nil => rfl
  | cons c rest ih =>
    by_cases h : c.id = cid
    · simp [List.find?_cons, h, hf]
    · simp [List.find?_cons, h, hf, ih]

/-- Reading back the campaign that `update_campaign` targeted. -/
theorem get_campaign_update_campaign (st : Store) (cid : String)
    (p : CampaignPatch) :
    get_campaign (update_campaign st cid p) cid =
      if p.isEmpty then get_campaign st cid
      else (get_campaign st cid).map (applyCampaignPatch p st.clock) := by
  unfold update_campaign get_campaign
  split
  · rfl
  · exact find?_map_update st.campaigns cid _ (fun c => rfl)

/-- Reading back a freshly created campaign. -/
theorem get_campaign_create_campaign (st : Store) (cid n b lo : String)
    (m : Nat) (fe : Option String)
    (h : ∀ c ∈ st.campaigns, c.id ≠ cid) :
    get_campaign (create_campaign st cid n b lo m fe) cid =
      some (mkCampaignRow st.clock cid n b lo m fe) := by
  unfold create_campaign get_campaign
  rw [List.find?_append]
  have h1 : (st.campaigns.find? fun c => c.id = cid) = none :=
    List.find?_eq_none.2 (fun x hx => by simpa using h x hx)
  rw [h1]
  simp [mkCampaignRow]


/-- A campaign patch that touches neither `status` nor `completed_at`
(the per-stage counter updates) preserves the phase. -/
theorem campaignPhase_update_counters (st : Store) (cid : String)
    (p : CampaignPatch) (hs : p.status = none) (hc : p.completed_at = none) :
    campaignPhase (update_campaign st cid p) cid = campaignPhase st cid := by
  unfold campaignPhase
  rw [get_campaign_update_campaign]
  split
  · rfl
  · cases hg : get_campaign st cid with
    | none => rfl
    | some c => simp [applyCampaignPatch, hs, hc]

@[simp] theorem campaignPhase_record_pipeline_run (st : Store)
    (cid' cid stg sta : String) (d : Option Nat) (p s e : Nat)
    (m : Option String) :
    campaignPhase (record_pipeline_run st cid stg sta d p s e m) cid' =
      campaignPhase st cid' := rfl

@[simp] theorem campaignPhase_insert_leads (st : Store) (cid' cid : String)
    (bs : List Business) :
    campaignPhase (insert_leads st cid bs) cid' = campaignPhase st cid' := by
  unfold campaignPhase
  simp

@[simp] theorem campaignPhase_update_leads_batch (st : Store)
    (cid' cid : String) (us : List LeadPatch) :
    campaignPhase (update_leads_batch st cid us) cid' =
      campaignPhase st cid' := by
  unfold campaignPhase
  simp

/-! ## Per-stage composition lemmas -/

/-- The validation stage appends exactly the audit rows its attempt
produced: none when skipped as a no-op, one `validation` row otherwise. -/
theorem validate_leads_runs_seg (env : RunEnv) (cid : String) (st : Store) :
    (validate_leads env cid st).store.runs =
      st.runs ++ ((validate_leads env cid st).store.runs.drop st.runs.length) ∧
    ((validate_leads env cid st).store.runs.drop st.runs.length).map
        (fun r => r.stage) =
      (if (validate_leads env cid st).attempted then ["validation"]
       else []) := by
  unfold validate_leads
  cases env.validatorError with
  | some e =>
    by_cases hnil : (validationReadSet st cid).isEmpty = true
    · constructor <;> simp [hnil]
    · constructor <;> simp [hnil, List.drop_left]
  | none =>
    by_cases hnil : (validationReadSet st cid).isEmpty = true
    · constructor <;> simp [hnil]
    · constructor <;> simp [hnil, List.drop_left]

theorem enrich_runs_seg (cid : String) (st : Store) :
    (enrich_linkedin_profiles cid st).store.runs =
      st.runs ++
        ((enrich_linkedin_profiles cid st).store.runs.drop st.runs.length) ∧
    ((enrich_linkedin_profiles cid st).store.runs.drop st.runs.length).map
        (fun r => r.stage) =
      (if (enrich_linkedin_profiles cid st).attempted then
        ["linkedin_enrichment"] else []) := by
  unfold enrich_linkedin_profiles
  by_cases hnil : (enrichmentReadSet st cid).isEmpty = true
  · constructor <;> simp [hnil]
  · constructor <;> simp [hnil, List.drop_left]

theorem research_runs_seg (cid : String) (st : Store) :
    (research_companies cid st).store.runs =
      st.runs ++
        ((research_companies cid st).store.runs.drop st.runs.length) ∧
    ((research_companies cid st).store.runs.drop st.runs.length).map
        (fun r => r.stage) =
      (if (research_companies cid st).attempted then ["research"]
       else []) := by
  unfold research_companies
  by_cases hnil : (researchReadSet st cid).isEmpty = true
  · constructor <;> simp [hnil]
  · constructor <;> simp [hnil, List.drop_left]

theorem personalize_runs_seg (cid : String) (st : Store) :
    (personalize_messages cid st).store.runs =
      st.runs ++
        ((personalize_messages cid st).store.runs.drop st.runs.length) ∧
    ((personalize_messages cid st).store.runs.drop st.runs.length).map
        (fun r => r.stage) =
      (if (personalize_messages cid st).attempted then
        ["personalization"] else []) := by
  unfold personalize_messages
  by_cases hnil : (personalizationReadSet st cid).isEmpty = true
  · constructor <;> simp [hnil]
  · constructor <;> simp [hnil, List.drop_left]

/-- Each stage leaves its campaign's status and completion timestamp
untouched; only the orchestrator's final/failure updates write those. -/
theorem validate_leads_phase (env : RunEnv) (cid : String) (st : Store) :
    campaignPhase (validate_leads env cid st).store cid =
      campaignPhase st cid := by
  unfold validate_leads
  cases env.validatorError with
  | some e =>
    by_cases hnil : (validationReadSet st cid).isEmpty = true
    · simp [hnil]
    · simp [hnil]
  | none =>
    by_cases hnil : (validationReadSet st cid).isEmpty = true
    · simp [hnil]
    · simp [hnil, campaignPhase_update_counters]

theorem enrich_phase (cid : String) (st : Store) :
    campaignPhase (enrich_linkedin_profiles cid st).store cid =
      campaignPhase st cid := by
  unfold enrich_linkedin_profiles
  by_cases hnil : (enrichmentReadSet st cid).isEmpty = true
  · simp [hnil]
  · simp [hnil, campaignPhase_update_counters]

theorem research_phase (cid : String) (st : Store) :
    campaignPhase (research_companies cid st).store cid =
      campaignPhase st cid := by
  unfold research_companies
  by_cases hnil : (researchReadSet st cid).isEmpty = true
  · simp [hnil]
  · simp [hnil]

theorem personalize_phase (cid : String) (st : Store) :
    campaignPhase (personalize_messages cid st).store cid =
      campaignPhase st cid := by
  unfold personalize_messages
  by_cases hnil : (personalizationReadSet st cid).isEmpty = true
  · simp [hnil]
  · simp [hnil, campaignPhase_update_counters]

/-- A configuration-gated stage: skipping is a no-op, running appends its
single audit row. -/
theorem gated_seg (b : Bool) (f : Store → StageOut) (st : Store)
    (name : String)
    (hf : (f st).store.runs =
        st.runs ++ ((f st).store.runs.drop st.runs.length) ∧
      ((f st).store.runs.drop st.runs.length).map (fun r => r.stage) =
        (if (f st).attempted then [name] else [])) :
    (if b then f st else { store := st }).store.runs =
      st.runs ++
        ((if b then f st else { store := st }).store.runs.drop
          st.runs.length) ∧
    ((if b then f st else { store := st }).store.runs.drop
        st.runs.length).map (fun r => r.stage) =
      (if (if b then f st else { store := st } : StageOut).attempted then
        [name] else []) := by
  cases b
  · simp
  · simpa using hf

theorem gated_phase (b : Bool) (f : Store → StageOut) (st : Store)
    (cid : String)
    (hf : campaignPhase (f st).store cid = campaignPhase st cid) :
    campaignPhase (if b then f st else { store := st }).store cid =
      campaignPhase st cid := by
  cases b
  · simp
  · simpa using hf

theorem gated_campaigns_length (b : Bool) (f : Store → StageOut)
    (st : Store)
    (hf : (f st).store.campaigns.length = st.campaigns.length) :
    (if b then f st else { store := st }).store.campaigns.length =
      st.campaigns.length := by
  cases b
  · simp
  · simpa using hf

theorem validate_leads_campaigns_length (env : RunEnv) (cid : String)
    (st : Store) :
    (validate_leads env cid st).store.campaigns.length =
      st.campaigns.length := by
  unfold validate_leads
  cases env.validatorError with
  | some e =>
    by_cases hnil : (validationReadSet st cid).isEmpty = true <;> simp [hnil]
  | none =>
    by_cases hnil : (validationReadSet st cid).isEmpty = true <;> simp [hnil]

theorem enrich_campaigns_length (cid : String) (st : Store) :
    (enrich_linkedin_profiles cid st).store.campaigns.length =
      st.campaigns.length := by
  unfold enrich_linkedin_profiles
  by_cases hnil : (enrichmentReadSet st cid).isEmpty = true <;> simp [hnil]

theorem research_campaigns_length (cid : String) (st : Store) :
    (research_companies cid st).store.campaigns.length =
      st.campaigns.length := by
  unfold research_companies
  by_cases hnil : (researchReadSet st cid).isEmpty = true <;> simp [hnil]

theorem personalize_campaigns_length (cid : String) (st : Store) :
    (personalize_messages cid st).store.campaigns.length =
      st.campaigns.length := by
  unfold personalize_messages
  by_cases hnil : (personalizationReadSet st cid).isEmpty = true <;>
    simp [hnil]

/-- The failure handler marks the campaign failed and preserves its
completion timestamp. -/
theorem campaignPhase_fail_run (cid e : String) (st : Store) :
    campaignPhase (fail_run cid e st) cid =
      (campaignPhase st cid).map fun ph => ("failed", ph.2) := by
  unfold fail_run campaignPhase
  rw [get_campaign_update_campaign]
  rw [if_neg (by simp [CampaignPatch.isEmpty])]
  cases get_campaign st cid with
  | none => rfl
  | some c => simp [applyCampaignPatch]

/-- The terminal success update sets status `completed` and stamps
`completed_at`. -/
theorem campaignPhase_complete_update (st : Store) (cid : String) (t : Nat) :
    campaignPhase
        (update_campaign st cid
          { status := some "completed", completed_at := some t }) cid =
      (campaignPhase st cid).map fun _ => ("completed", some t) := by
  unfold campaignPhase
  rw [get_campaign_update_campaign]
  rw [if_neg (by simp [CampaignPatch.isEmpty])]
  cases get_campaign st cid with
  | none => rfl
  | some c => simp [applyCampaignPatch]

/-- Setting only the status preserves the completion timestamp. -/
theorem campaignPhase_status_update (st : Store) (cid s : String) :
    campaignPhase (update_campaign st cid { status := some s }) cid =
      (campaignPhase st cid).map fun ph => (s, ph.2) := by
  unfold campaignPhase
  rw [get_campaign_update_campaign]
  rw [if_neg (by simp [CampaignPatch.isEmpty])]
  cases get_campaign st cid with
  | none => rfl
  | some c => simp [applyCampaignPatch]

@[simp] theorem gated_validate_campaigns_length (b : Bool) (env : RunEnv)
    (cid : String) (st : Store) :
    ((if b then validate_leads env cid st else { store := st }) :
      StageOut).store.campaigns.length = st.campaigns.length := by
  cases b <;> simp [validate_leads_campaigns_length]

@[simp] theorem gated_enrich_campaigns_length (b : Bool) (cid : String)
    (st : Store) :
    ((if b then enrich_linkedin_profiles cid st else { store := st }) :
      StageOut).store.campaigns.length = st.campaigns.length := by
  cases b <;> simp [enrich_campaigns_length]

@[simp] theorem gated_research_campaigns_length (b : Bool) (cid : String)
    (st : Store) :
    ((if b then research_companies cid st else { store := st }) :
      StageOut).store.campaigns.length = st.campaigns.length := by
  cases b <;> simp [research_campaigns_length]

@[simp] theorem gated_personalize_campaigns_length (b : Bool) (cid : String)
    (st : Store) :
    ((if b then personalize_messages cid st else { store := st }) :
      StageOut).store.campaigns.length = st.campaigns.length := by
  cases b <;> simp [personalize_campaigns_length]

@[simp] theorem gated_validate_phase (b : Bool) (env : RunEnv)
    (cid : String) (st : Store) :
    campaignPhase ((if b then validate_leads env cid st
        else { store := st }) : StageOut).store cid = campaignPhase st cid := by
  cases b <;> simp [validate_leads_phase]

@[simp] theorem gated_enrich_phase (b : Bool) (cid : String) (st : Store) :
    campaignPhase ((if b then enrich_linkedin_profiles cid st
        else { store := st }) : StageOut).store cid = campaignPhase st cid := by
  cases b <;> simp [enrich_phase]

@[simp] theorem gated_research_phase (b : Bool) (cid : String) (st : Store) :
    campaignPhase ((if b then research_companies cid st
        else { store := st }) : StageOut).store cid = campaignPhase st cid := by
  cases b <;> simp [research_phase]

@[simp] theorem gated_personalize_phase (b : Bool) (cid : String)
    (st : Store) :
    campaignPhase ((if b then personalize_messages cid st
        else { store := st }) : StageOut).store cid = campaignPhase st cid := by
  cases b <;> simp [personalize_phase]

/-- A one-stage attempt list is unaffected by the export filter. -/
theorem filter_stage_opt (b : Bool) (s : String) (h : s ≠ "export") :
    (if b then [s] else []).filter (fun x => x ≠ "export") =
      (if b then [s] else []) := by
  cases b <;> simp [h]

/-- The post-scrape pipeline tail appends, in execution order, exactly one
audit row per attempted stage except export, which appends none. -/
theorem run_after_scrape_runs_seg (cfg : PipelineConfig) (env : RunEnv)
    (cid : String) (bs : List Business) (st0 : Store) :
    (run_after_scrape cfg env cid bs st0).store.runs =
      st0.runs ++
        ((run_after_scrape cfg env cid bs st0).store.runs.drop
          st0.runs.length) ∧
    ((run_after_scrape cfg env cid bs st0).store.runs.drop
        st0.runs.length).map (fun r => r.stage) =
      (run_after_scrape cfg env cid bs st0).attempted.filter
        (fun s => s ≠ "export") := by
  unfold run_after_scrape export_results
  dsimp only
  obtain ⟨hv1, hv2⟩ := gated_seg cfg.enable_validation (validate_leads env cid)
    (update_campaign (insert_leads st0 cid bs) cid
      { total_leads := some bs.length })
    "validation"
    (validate_leads_runs_seg env cid _)
  set stA := update_campaign (insert_leads st0 cid bs) cid
    { total_leads := some bs.length } with hA
  have hAruns : stA.runs = st0.runs := by
    rw [hA]
    simp
  set vO := (if cfg.enable_validation then validate_leads env cid stA
    else { store := stA } : StageOut) with hvO
  rw [hAruns] at hv1 hv2
  generalize hDv : vO.store.runs.drop st0.runs.length = Dv at hv1 hv2
  cases hverr : vO.error with
  | some e =>
    simp only [hverr]
    constructor
    · simp only [runs_fail_run]
      rw [hv1, List.drop_left]
    · simp only [runs_fail_run]
      rw [hv1, List.drop_left, hv2, filter_stage_opt _ _ (by decide)]
  | none =>
    simp only [hverr]
    obtain ⟨he1, he2⟩ := gated_seg cfg.enable_linkedin_enrichment
      (enrich_linkedin_profiles cid) vO.store "linkedin_enrichment"
      (enrich_runs_seg cid vO.store)
    set eO := (if cfg.enable_linkedin_enrichment then
      enrich_linkedin_profiles cid vO.store
      else { store := vO.store } : StageOut) with heO
    generalize hDe : eO.store.runs.drop vO.store.runs.length = De at he1 he2
    obtain ⟨hr1, hr2⟩ := gated_seg cfg.enable_research
      (research_companies cid) eO.store "research"
      (research_runs_seg cid eO.store)
    set rO := (if cfg.enable_research then research_companies cid eO.store
      else { store := eO.store } : StageOut) with hrO
    generalize hDr : rO.store.runs.drop eO.store.runs.length = Dr at hr1 hr2
    obtain ⟨hp1, hp2⟩ := gated_seg cfg.enable_personalization
      (personalize_messages cid) rO.store "personalization"
      (personalize_runs_seg cid rO.store)
    set pO := (if cfg.enable_personalization then
      personalize_messages cid rO.store
      else { store := rO.store } : StageOut) with hpO
    generalize hDp : pO.store.runs.drop rO.store.runs.length = Dp at hp1 hp2
    rw [hv1] at he1
    rw [he1] at hr1
    rw [hr1] at hp1
    cases hex : env.exportResult with
    | error e =>
      constructor
      · simp only [runs_fail_run]
        rw [hp1]
        simp [List.append_assoc, List.drop_left]
      · simp only [runs_fail_run]
        rw [hp1]
        simp only [List.append_assoc]
        rw [List.drop_left]
        simp only [List.map_append, hv2, he2, hr2, hp2,
          List.filter_append]
        rw [filter_stage_opt _ _ (by decide),
          filter_stage_opt _ _ (by decide),
          filter_stage_opt _ _ (by decide),
          filter_stage_opt _ _ (by decide)]
        simp
    | ok csv_file =>
      constructor
      · simp only [runs_update_campaign]
        rw [hp1]
        simp [List.append_assoc, List.drop_left]
      · simp only [runs_update_campaign]
        rw [hp1]
        simp only [List.append_assoc]
        rw [List.drop_left]
        simp only [List.map_append, hv2, he2, hr2, hp2,
          List.filter_append]
        rw [filter_stage_opt _ _ (by decide),
          filter_stage_opt _ _ (by decide),
          filter_stage_opt _ _ (by decide),
          filter_stage_opt _ _ (by decide)]
        simp

/-- The pipeline tail never creates or deletes campaign rows. -/
theorem run_after_scrape_campaigns_length (cfg : PipelineConfig)
    (env : RunEnv) (cid : String) (bs : List Business) (st0 : Store) :
    (run_after_scrape cfg env cid bs st0).store.campaigns.length =
      st0.campaigns.length := by
  unfold run_after_scrape export_results
  dsimp only
  set stA := update_campaign (insert_leads st0 cid bs) cid
    { total_leads := some bs.length } with hA
  have hAlen : stA.campaigns.length = st0.campaigns.length := by
    rw [hA]
    simp
  set vO := (if cfg.enable_validation then validate_leads env cid stA
    else { store := stA } : StageOut) with hvO
  have hvlen : vO.store.campaigns.length = st0.campaigns.length := by
    rw [hvO]
    simp [hAlen]
  cases hverr : vO.error with
  | some e =>
    simp only [hverr]
    simp [hvlen]
  | none =>
    simp only [hverr]
    set eO := (if cfg.enable_linkedin_enrichment then
      enrich_linkedin_profiles cid vO.store
      else { store := vO.store } : StageOut) with heO
    have helen : eO.store.campaigns.length = st0.campaigns.length := by
      rw [heO]
      simp [hvlen]
    set rO := (if cfg.enable_research then research_companies cid eO.store
      else { store := eO.store } : StageOut) with hrO
    have hrlen : rO.store.campaigns.length = st0.campaigns.length := by
      rw [hrO]
      simp [helen]
    set pO := (if cfg.enable_personalization then
      personalize_messages cid rO.store
      else { store := rO.store } : StageOut) with hpO
    have hplen : pO.store.campaigns.length = st0.campaigns.length := by
      rw [hpO]
      simp [hrlen]
    cases hex : env.exportResult with
    | error e => simp [hplen]
    | ok csv_file => simp [hplen]

/-- The pipeline tail's effect on the campaign's status/completion pair:
a failing tail marks the campaign `failed` and preserves `completed_at`;
a successful tail marks it `completed` and stamps `completed_at`. -/
theorem run_after_scrape_phase (cfg : PipelineConfig) (env : RunEnv)
    (cid : String) (bs : List Business) (st0 : Store) :
    (∀ e, (run_after_scrape cfg env cid bs st0).result = .error e →
      campaignPhase (run_after_scrape cfg env cid bs st0).store cid =
        (campaignPhase st0 cid).map fun ph => ("failed", ph.2)) ∧
    (∀ s, (run_after_scrape cfg env cid bs st0).result = .ok s →
      ∃ t, campaignPhase (run_after_scrape cfg env cid bs st0).store cid =
        (campaignPhase st0 cid).map fun _ => ("completed", some t)) := by
  unfold run_after_scrape export_results
  dsimp only
  set stA := update_campaign (insert_leads st0 cid bs) cid
    { total_leads := some bs.length } with hA
  have hAp : campaignPhase stA cid = campaignPhase st0 cid := by
    rw [hA]
    rw [campaignPhase_update_counters _ _ _ rfl rfl]
    simp
  set vO := (if cfg.enable_validation then validate_leads env cid stA
    else { store := stA } : StageOut) with hvO
  have hvp : campaignPhase vO.store cid = campaignPhase st0 cid := by
    rw [hvO]
    simp [hAp]
  cases hverr : vO.error with
  | some e =>
    simp only [hverr]
    constructor
    · intro e' he'
      simp [campaignPhase_fail_run, hvp]
    · intro s hs
      cases hs
  | none =>
    simp only [hverr]
    set eO := (if cfg.enable_linkedin_enrichment then
      enrich_linkedin_profiles cid vO.store
      else { store := vO.store } : StageOut) with heO
    have hep : campaignPhase eO.store cid = campaignPhase st0 cid := by
      rw [heO]
      simp [hvp]
    set rO := (if cfg.enable_research then research_companies cid eO.store
      else { store := eO.store } : StageOut) with hrO
    have hrp : campaignPhase rO.store cid = campaignPhase st0 cid := by
      rw [hrO]
      simp [hep]
    set pO := (if cfg.enable_personalization then
      personalize_messages cid rO.store
      else { store := rO.store } : StageOut) with hpO
    have hpp : campaignPhase pO.store cid = campaignPhase st0 cid := by
      rw [hpO]
      simp [hrp]
    cases hex : env.exportResult with
    | error e =>
      constructor
      · intro e' he'
        simp [campaignPhase_fail_run, hpp]
      · intro s hs
        cases hs
    | ok csv_file =>
      constructor
      · intro e' he'
        cases he'
      · intro s hs
        refine ⟨pO.store.clock, ?_⟩
        rw [campaignPhase_complete_update, hpp]


@[simp] theorem campaignErrView_record_pipeline_run (st : Store)
    (cid' cid stg sta : String) (d : Option Nat) (p s e : Nat)
    (m : Option String) :
    campaignErrView (record_pipeline_run st cid stg sta d p s e m) cid' =
      campaignErrView st cid' := rfl

theorem campaignErrView_update_campaign (st : Store) (cid : String)
    (p : CampaignPatch) (hne : p.isEmpty = false) :
    campaignErrView (update_campaign st cid p) cid =
      (campaignErrView st cid).map fun ph =>
        (p.status.getD ph.1, (p.error_message.map some).getD ph.2) := by
  unfold campaignErrView
  rw [get_campaign_update_campaign]
  rw [if_neg (by simp [hne])]
  cases get_campaign st cid with
  | none => rfl
  | some c => simp [applyCampaignPatch]

theorem campaignErrView_create_campaign (st : Store) (cid n b lo : String)
    (m : Nat) (fe : Option String)
    (h : ∀ c ∈ st.campaigns, c.id ≠ cid) :
    campaignErrView (create_campaign st cid n b lo m fe) cid =
      some ("pending", none) := by
  unfold campaignErrView
  rw [get_campaign_create_campaign st cid n b lo m fe h]
  rfl


/-! ## Claim theorems -/

/-- C2: for every input list to `validate_leads_batch`, the output has
exactly the input's length, and the i-th output record is the (handled)
validation outcome of the i-th input record alone, so output order
matches input order. -/
theorem C2_batch_order_preservation (env : ValidatorEnv)
    (leads : List LeadRec) :
    (validate_leads_batch env leads).length = leads.length ∧
    ∀ i (h : i < leads.length) (h' : i < (validate_leads_batch env leads).length),
      (validate_leads_batch env leads).get ⟨i, h'⟩ =
        handle_result (leads.get ⟨i, h⟩)
          (run_single_task env i (leads.get ⟨i, h⟩)) := by
  refine ⟨by simp [validate_leads_batch], ?_⟩
  intro i h h'
  simpa [validate_leads_batch] using
    List.get_mapIdx leads
      (fun i lead => handle_result lead (run_single_task env i lead)) i h

/-- Witness for C2 at a concrete two-lead batch. -/
theorem C2_batch_order_preservation_witness :
    (validate_leads_batch demoVEnv demoLeads).length = demoLeads.length ∧
    (validate_leads_batch demoVEnv demoLeads).get ⟨1, by decide⟩ =
      handle_result (demoLeads.get ⟨1, by decide⟩)
        (run_single_task demoVEnv 1 (demoLeads.get ⟨1, by decide⟩)) :=
  ⟨(C2_batch_order_preservation demoVEnv demoLeads).1,
   (C2_batch_order_preservation demoVEnv demoLeads).2 1 (by decide) (by decide)⟩

/-- C3: if the validation task of exactly one lead raises, the batch still
returns one result per lead; the failing lead's result is a copy of its
original record with all three flags false and the exception message in
`validation_error`, and every other lead's result is its plain
single-lead validation outcome, untouched by the failure. -/
theorem C3_failure_isolation (env : ValidatorEnv) (leads : List LeadRec)
    (i : Nat) (hi : i < leads.length) (msg : String)
    (hinj : env.inject i = some msg)
    (hrest : ∀ j, j ≠ i → env.inject j = none) :
    (validate_leads_batch env leads).length = leads.length ∧
    (∀ h' : i < (validate_leads_batch env leads).length,
      (validate_leads_batch env leads).get ⟨i, h'⟩ =
        { leads.get ⟨i, hi⟩ with
            email_valid := false, phone_valid := false,
            company_valid := false, validation_error := some msg }) ∧
    (∀ j (hj : j < leads.length)
        (hj' : j < (validate_leads_batch env leads).length), j ≠ i →
      (validate_leads_batch env leads).get ⟨j, hj'⟩ =
        validate_single_lead env (leads.get ⟨j, hj⟩)) := by
  refine ⟨by simp [validate_leads_batch], ?_, ?_⟩
  · intro h'
    have := List.get_mapIdx leads
      (fun i lead => handle_result lead (run_single_task env i lead)) i hi
    simpa [validate_leads_batch, run_single_task, hinj, handle_result] using this
  · intro j hj hj' hne
    have := List.get_mapIdx leads
      (fun i lead => handle_result lead (run_single_task env i lead)) j hj
    simpa [validate_leads_batch, run_single_task, hrest j hne,
      handle_result] using this

/-- Witness for C3: a two-lead batch in which task 1 raises. -/
theorem C3_failure_isolation_witness :
    (validate_leads_batch demoVEnvInj demoLeads).length = demoLeads.length ∧
    (∀ h' : 1 < (validate_leads_batch demoVEnvInj demoLeads).length,
      (validate_leads_batch demoVEnvInj demoLeads).get ⟨1, h'⟩ =
        { demoLeads.get ⟨1, by decide⟩ with
            email_valid := false, phone_valid := false,
            company_valid := false, validation_error := some "boom" }) ∧
    (∀ j (hj : j < demoLeads.length)
        (hj' : j < (validate_leads_batch demoVEnvInj demoLeads).length),
        j ≠ 1 →
      (validate_leads_batch demoVEnvInj demoLeads).get ⟨j, hj'⟩ =
        validate_single_lead demoVEnvInj (demoLeads.get ⟨j, hj⟩)) :=
  C3_failure_isolation demoVEnvInj demoLeads 1 (by decide) "boom" rfl
    (fun j hj => by
      simp only [demoVEnvInj, demoVEnv]
      exact if_neg hj)

/-- C9: an email string that is truthy but fails the basic regex format
check yields `email_valid = false` with an `Invalid email format` details
dict and performs zero DNS lookups — the format check short-circuits
before `_check_domain_exists` can be reached, whatever the DNS and
library oracles would answer. -/
theorem C9_email_format_short_circuit (env : ValidatorEnv) (s : String)
    (hs : s.toList.isEmpty = false)
    (h : matchesEmailPattern (normalizeEmail s) = false) :
    validate_email env (some s) =
      (false, some { error := some "Invalid email format" }, 0) := by
  have hs' : ¬ s.data = [] := by
    intro hd
    rw [String.toList, hd] at hs
    simp at hs
  simp [validate_email, hs', h]

/-- Witness for C9 at the spec's example `"not-an-email"`. -/
theorem C9_email_format_short_circuit_witness :
    "not-an-email".toList.isEmpty = false ∧
    matchesEmailPattern (normalizeEmail "not-an-email") = false ∧
    validate_email demoVEnv (some "not-an-email") =
      (false, some { error := some "Invalid email format" }, 0) :=
  ⟨by decide, by decide,
   C9_email_format_short_circuit demoVEnv "not-an-email" (by decide) (by decide)⟩



/-- C10 (frame property of `update_leads_batch`): the batch update
preserves the number of lead rows; a row whose campaign differs from the
given one, or whose id no update entry carries, is returned unchanged;
and a single update entry without an `'id'` key, or whose id sits in a
different campaign than the given one, has no effect on any row. -/
theorem C10_update_leads_batch_frame (st : Store) (cid : String)
    (updates : List LeadPatch) :
    (update_leads_batch st cid updates).leads.length = st.leads.length ∧
    (∀ k (h : k < st.leads.length)
        (h' : k < (update_leads_batch st cid updates).leads.length),
      ((st.leads.get ⟨k, h⟩).campaign_id ≠ cid ∨
        (∀ u ∈ updates, u.id ≠ some (st.leads.get ⟨k, h⟩).id)) →
      (update_leads_batch st cid updates).leads.get ⟨k, h'⟩ =
        st.leads.get ⟨k, h⟩) ∧
    (∀ (u : LeadPatch) (l : LeadRow) (clock : Nat),
      u.id = none → applyLeadUpdate cid clock u l = l) ∧
    (∀ (u : LeadPatch) (l : LeadRow) (clock : Nat) (i : Nat),
      u.id = some i → l.campaign_id ≠ cid →
      applyLeadUpdate cid clock u l = l) := by
  have happly : ∀ (u : LeadPatch) (l : LeadRow) (clock : Nat),
      (l.campaign_id ≠ cid ∨ u.id ≠ some l.id) →
      applyLeadUpdate cid clock u l = l := by
    intro u l clock hu
    unfold applyLeadUpdate
    match hid : u.id with
    | none => rfl
    | some i =>
      simp only
      by_cases h0 : i = 0
      · simp [h0]
      · rw [if_neg h0]
        by_cases hf : u.hasFields
        · rw [if_neg (by simpa using hf)]
          have : ¬ (l.id = i ∧ l.campaign_id = cid) := by
            rcases hu with hc | hi
            · exact fun hand => hc hand.2
            · exact fun hand => hi (by rw [hid, hand.1])
          rw [if_neg this]
        · rw [if_pos (by simpa using hf)]
  refine ⟨?_, ?_, ?_, ?_⟩
  · unfold update_leads_batch
    split
    · rfl
    · simpa using foldl_map_length (applyLeadUpdate cid st.clock) updates st.leads
  · intro k h h' hside
    by_cases he : updates.isEmpty
    · simp [update_leads_batch, he]
    · have hl : (update_leads_batch st cid updates).leads =
          updates.foldl (fun ls u => ls.map (applyLeadUpdate cid st.clock u))
            st.leads := by
        unfold update_leads_batch
        rw [if_neg he]
      rw [List.get_of_eq hl ⟨k, h'⟩]
      rw [foldl_map_get (applyLeadUpdate cid st.clock) updates st.leads k h]
      apply foldl_fixed
      intro u hu
      apply happly
      rcases hside with hc | hids
      · exact Or.inl hc
      · exact Or.inr (hids u hu)
  · intro u l clock hu
    exact happly u l clock (Or.inr (by simp [hu]))
  · intro u l clock i hu hc
    exact happly u l clock (Or.inl hc)

/-- Witness for C10: an update aimed at lead id 3, which belongs to
campaign `d`, leaves campaign `c`'s batch update without any effect on
that row. -/
theorem C10_update_leads_batch_frame_witness :
    (update_leads_batch demoStore "c"
      [{ id := some 3, status := some "enriched" }]).leads.length =
        demoStore.leads.length ∧
    (update_leads_batch demoStore "c"
      [{ id := some 3, status := some "enriched" }]).leads.get ⟨2, by decide⟩ =
        demoStore.leads.get ⟨2, by decide⟩ :=
  ⟨(C10_update_leads_batch_frame demoStore "c"
      [{ id := some 3, status := some "enriched" }]).1,
   (C10_update_leads_batch_frame demoStore "c"
      [{ id := some 3, status := some "enriched" }]).2.1 2 (by decide) (by decide)
      (Or.inl (by decide))⟩

/-- C1 counterexample: the claim says the validation stage reads exactly
the campaign's leads with status `'new'` and operates on no others, but
`_validate_leads` queries with no status filter: on `demoStore` its read
set contains the status-`'validated'` lead id 2, and running the stage
mutates that lead's `email_valid` flag. -/
theorem C1_counterexample :
    (∃ l ∈ validationReadSet demoStore "c", l.status ≠ "new") ∧
    (demoStore.leads.get ⟨1, by decide⟩).status = "validated" ∧
    (demoStore.leads.get ⟨1, by decide⟩).email_valid = false ∧
    ((validate_leads demoRunEnv "c" demoStore).store.leads.get
        ⟨1, by decide⟩).email_valid = true := by
  refine ⟨⟨demoStore.leads.get ⟨1, by decide⟩, by decide, by decide⟩,
    by decide, by decide, by decide⟩

/-- C1 amended: the enrichment, research and personalization stages read
exactly the campaign's leads whose status is the previous stage's value
(`'validated'`, `'enriched'`, `'researched'` respectively), but the
validation stage reads ALL the campaign's leads with no status filter
(under a normal run these are exactly the freshly inserted `'new'`
leads). -/
theorem C1_stage_read_sets (st : Store) (cid : String) (l : LeadRow) :
    (l ∈ validationReadSet st cid ↔ l ∈ st.leads ∧ l.campaign_id = cid) ∧
    (l ∈ enrichmentReadSet st cid ↔
      l ∈ st.leads ∧ l.campaign_id = cid ∧ l.status = "validated") ∧
    (l ∈ researchReadSet st cid ↔
      l ∈ st.leads ∧ l.campaign_id = cid ∧ l.status = "enriched") ∧
    (l ∈ personalizationReadSet st cid ↔
      l ∈ st.leads ∧ l.campaign_id = cid ∧ l.status = "researched") := by
  refine ⟨?_, ?_, ?_, ?_⟩ <;>
    simp [validationReadSet, enrichmentReadSet, researchReadSet,
      personalizationReadSet, get_leads_by_campaign, List.mem_filter,
      and_assoc]

/-! ## Quality-score claims (C8) -/


/-- Every output of `validate_leads_batch` on score-free inputs (as the
orchestrator's DB rows are) carries a score consistent with its flags. -/
theorem batch_output_score_consistent (env : ValidatorEnv)
    (leads : List LeadRec) (h0 : ∀ l ∈ leads, l.validation_score = none) :
    ∀ l ∈ validate_leads_batch env leads, ScoreConsistent l := by
  intro l hl
  rw [validate_leads_batch] at hl
  obtain ⟨i, hi, rfl⟩ := List.mem_iff_get.1 hl
  rw [List.get_mapIdx leads _ i.1 (by simpa using i.2)]
  set src := leads.get ⟨i.1, by simpa using i.2⟩ with hsrc
  have hmem : src ∈ leads := by
    rw [hsrc]
    exact List.get_mem leads _ _
  cases hrun : run_single_task env i.1 src with
  | error msg =>
    simp only [handle_result, ScoreConsistent, scoreOf, flagCount]
    rw [h0 src hmem]
    rfl
  | ok v =>
    simp only [handle_result]
    unfold run_single_task at hrun
    cases hinj : env.inject i.1 with
    | some m => rw [hinj] at hrun; cases hrun
    | none =>
      rw [hinj] at hrun
      simp only at hrun
      cases hrun
      simp [validate_single_lead, ScoreConsistent, scoreOf, flagCount]

theorem pyRoundInt_nonneg (q : ℚ) (h : 0 ≤ q) : 0 ≤ pyRoundInt q := by
  have h0 : (0:ℤ) ≤ ⌊q⌋ := Int.le_floor.2 (by exact_mod_cast h)
  simp only [pyRoundInt]
  split_ifs <;> omega

theorem pyRoundInt_le_ceil (q : ℚ) : pyRoundInt q ≤ ⌈q⌉ := by
  simp only [pyRoundInt]
  split_ifs with h1 h2 h3
  · exact Int.floor_le_ceil q
  · have hlt : (⌊q⌋ : ℚ) < q := by linarith
    have := Int.lt_ceil.2 hlt
    omega
  · exact Int.floor_le_ceil q
  · have hge : (1:ℚ)/2 ≤ q - ⌊q⌋ := by linarith
    have hlt : (⌊q⌋ : ℚ) < q := by linarith
    have := Int.lt_ceil.2 hlt
    omega

theorem pyRoundInt_le_add_half (q : ℚ) : (pyRoundInt q : ℚ) ≤ q + 1/2 := by
  have hfl := Int.floor_le q
  simp only [pyRoundInt]
  split_ifs with h1 h2 h3 <;> push_cast <;> linarith

/-- If a list of naturals bounded by `m` sums to `m` times its length,
every element equals `m`. -/
theorem list_sum_saturated {ls : List ℕ} {m : ℕ} (hb : ∀ x ∈ ls, x ≤ m)
    (hs : ls.sum = m * ls.length) : ∀ x ∈ ls, x = m := by
  induction ls with
  | nil => simp
  | cons a as ih =>
    have ha := hb a (by simp)
    have has : as.sum ≤ m * as.length := by
      have := List.sum_le_card_nsmul as m (fun x hx => hb x (by simp [hx]))
      simpa [smul_eq_mul, Nat.mul_comm] using this
    simp only [List.sum_cons, List.length_cons] at hs
    have hmul : m * (as.length + 1) = m * as.length + m := by ring
    rw [hmul] at hs
    have ham : a = m ∧ as.sum = m * as.length := by
      generalize m * as.length = T at has hs
      omega
    intro x hx
    rcases List.mem_cons.1 hx with rfl | hxs
    · exact ham.1
    · exact ih (fun y hy => hb y (by simp [hy])) ham.2 x hxs

/-- C8 amended: for a non-empty list of score-consistent validated leads,
`overall_quality_score` always lies in [0, 100]; it equals 100 whenever
every lead has all three flags true; and — provided the batch holds at
most 6666 leads — it equals 100 only in that case.  (From 6667 leads on,
the rounding to two decimals can report 100 with one failed check; see
the counterexample.) -/
theorem C8_quality_score_bounds (leads : List LeadRec) (hne : leads ≠ [])
    (hsc : ∀ l ∈ leads, ScoreConsistent l) :
    (0 ≤ overall_quality_score leads ∧ overall_quality_score leads ≤ 100) ∧
    ((∀ l ∈ leads, flagsAllTrue l = true) → overall_quality_score leads = 100) ∧
    (leads.length ≤ 6666 → overall_quality_score leads = 100 →
      ∀ l ∈ leads, flagsAllTrue l = true) := by
  have hN : 0 < leads.length := List.length_pos.2 hne
  have hb3 : ∀ x ∈ leads.map scoreOf, x ≤ 3 := by
    intro x hx
    obtain ⟨l, hl, rfl⟩ := List.mem_map.1 hx
    rw [hsc l hl]
    unfold flagCount
    split_ifs <;> omega
  have hS3 : (leads.map scoreOf).sum ≤ 3 * leads.length := by
    have := List.sum_le_card_nsmul (leads.map scoreOf) 3 hb3
    simpa [smul_eq_mul, Nat.mul_comm] using this
  have hmp : 0 < leads.length * 3 := by omega
  have hqdef : overall_quality_score leads =
      pyRound2 ((((leads.map scoreOf).sum : ℕ) : ℚ) /
        ((leads.length * 3 : ℕ) : ℚ) * 100) := by
    simp only [overall_quality_score]
    rw [if_pos hmp]
  set S : ℕ := (leads.map scoreOf).sum with hSdef
  set D : ℚ := ((leads.length * 3 : ℕ) : ℚ) with hDdef
  have hD0 : 0 < D := by
    rw [hDdef]
    exact_mod_cast hmp
  have hSD : (S : ℚ) ≤ D := by
    rw [hDdef]
    have : (S : ℚ) ≤ ((3 * leads.length : ℕ) : ℚ) := by exact_mod_cast hS3
    calc (S : ℚ) ≤ ((3 * leads.length : ℕ) : ℚ) := this
      _ = ((leads.length * 3 : ℕ) : ℚ) := by push_cast; ring
  refine ⟨?_, ?_, ?_⟩
  · rw [hqdef]
    constructor
    · have hnn : 0 ≤ (S : ℚ) / D * 100 * 100 := by positivity
      have := pyRoundInt_nonneg _ hnn
      simp only [pyRound2]
      positivity
    · have hle : (S : ℚ) / D * 100 * 100 ≤ 10000 := by
        have hdiv : (S : ℚ) / D ≤ 1 := (div_le_one hD0).2 hSD
        nlinarith
      have hceil : ⌈(S : ℚ) / D * 100 * 100⌉ ≤ (10000 : ℤ) :=
        Int.ceil_le.2 (by exact_mod_cast hle)
      have hr := (pyRoundInt_le_ceil ((S : ℚ) / D * 100 * 100)).trans hceil
      simp only [pyRound2]
      rw [div_le_iff (by norm_num : (0:ℚ) < 100)]
      calc (pyRoundInt ((S : ℚ) / D * 100 * 100) : ℚ) ≤ (10000 : ℤ) := by
            exact_mod_cast hr
        _ = 100 * 100 := by norm_num
  · intro hall
    have hrep : leads.map scoreOf = List.replicate leads.length 3 := by
      rw [List.eq_replicate_iff]
      refine ⟨by simp, ?_⟩
      intro b hb
      obtain ⟨l, hl, rfl⟩ := List.mem_map.1 hb
      have hf := hall l hl
      rw [hsc l hl]
      unfold flagCount
      unfold flagsAllTrue at hf
      simp only [Bool.and_eq_true] at hf
      rw [hf.1.1, hf.1.2, hf.2]
      rfl
    have hSval : S = 3 * leads.length := by
      rw [hSdef, hrep, List.sum_replicate, smul_eq_mul]
      ring
    have hx : (S : ℚ) / D * 100 = 100 := by
      have hDne : D ≠ 0 := ne_of_gt hD0
      have : (S : ℚ) = D := by
        rw [hSval, hDdef]
        push_cast
        ring
      rw [this, div_self hDne, one_mul]
    rw [hqdef, hx]
    simp only [pyRound2]
    have hfl : ⌊(100 * 100 : ℚ)⌋ = 10000 := by norm_num
    simp only [pyRoundInt, hfl]
    norm_num
  · intro hlen heq
    rw [hqdef] at heq
    simp only [pyRound2] at heq
    by_contra hbad
    push_neg at hbad
    obtain ⟨l0, hl0, hfl0⟩ := hbad
    have hfl0f : flagsAllTrue l0 = false := by
      cases hv : flagsAllTrue l0 with
      | false => rfl
      | true => exact absurd hv hfl0
    have hsl0 : scoreOf l0 ≤ 2 := by
      rw [hsc l0 hl0]
      unfold flagCount
      unfold flagsAllTrue at hfl0f
      cases hE : l0.email_valid <;> cases hP : l0.phone_valid <;>
        cases hC : l0.company_valid <;> simp_all
    have hnot : S ≠ 3 * leads.length := by
      intro hSeq
      have hall3 := list_sum_saturated hb3
        (by rw [List.length_map]; exact hSeq)
      have h3 := hall3 (scoreOf l0) (List.mem_map_of_mem scoreOf hl0)
      omega
    have hSlt : S < 3 * leads.length := lt_of_le_of_ne hS3 hnot
    have hSD1 : (S : ℚ) ≤ D - 1 := by
      rw [hDdef]
      have h1 : S + 1 ≤ leads.length * 3 := by omega
      have h2 : ((S + 1 : ℕ) : ℚ) ≤ ((leads.length * 3 : ℕ) : ℚ) := by
        exact_mod_cast h1
      push_cast at h2 ⊢
      linarith
    have hD19998 : D ≤ 19998 := by
      rw [hDdef]
      have h3 : leads.length * 3 ≤ 19998 := by omega
      exact_mod_cast h3
    have hx100 : (S : ℚ) / D * 100 * 100 < 19999/2 := by
      have hform : (S : ℚ) / D * 100 * 100 = (S : ℚ) * 10000 / D := by ring
      rw [hform, div_lt_iff hD0]
      nlinarith
    have hrle := pyRoundInt_le_add_half ((S : ℚ) / D * 100 * 100)
    have hrlt : (pyRoundInt ((S : ℚ) / D * 100 * 100) : ℚ) < 10000 := by
      linarith
    have heq10000 : (pyRoundInt ((S : ℚ) / D * 100 * 100) : ℚ) = 10000 := by
      rw [div_eq_iff (by norm_num : (100:ℚ) ≠ 0)] at heq
      norm_num at heq
      exact_mod_cast heq
    linarith


/-- Witness for the amended C8 theorem at a singleton batch. -/
theorem C8_quality_score_bounds_witness :
    (0 ≤ overall_quality_score [fullLead] ∧
      overall_quality_score [fullLead] ≤ 100) ∧
    ((∀ l ∈ [fullLead], flagsAllTrue l = true) →
      overall_quality_score [fullLead] = 100) ∧
    ([fullLead].length ≤ 6666 → overall_quality_score [fullLead] = 100 →
      ∀ l ∈ [fullLead], flagsAllTrue l = true) :=
  C8_quality_score_bounds [fullLead] (by simp)
    (by
      intro l hl
      rw [List.mem_singleton.1 hl]
      rfl)

/-- C8 counterexample: on 6667 score-consistent validated leads of which
one fails its company check, `overall_quality_score` still reports
exactly 100 after the two-decimal rounding, refuting the claim that a
score of 100 occurs only when every lead has all three flags true. -/
theorem C8_counterexample :
    c8leads ≠ [] ∧ (∀ l ∈ c8leads, ScoreConsistent l) ∧
    overall_quality_score c8leads = 100 ∧
    ¬ (∀ l ∈ c8leads, flagsAllTrue l = true) := by
  have hlen : c8leads.length = 6667 := by
    unfold c8leads
    rw [List.length_append, List.length_replicate]
    rfl
  refine ⟨?_, ?_, ?_, ?_⟩
  · intro hnil
    rw [hnil] at hlen
    simp at hlen
  · intro l hl
    unfold c8leads at hl
    rcases List.mem_append.1 hl with h | h
    · rw [List.eq_of_mem_replicate h]
      rfl
    · rw [List.mem_singleton.1 h]
      rfl
  · have hsum : (c8leads.map scoreOf).sum = 20000 := by
      unfold c8leads
      rw [List.map_append, List.map_replicate, List.sum_append,
        List.sum_replicate, smul_eq_mul]
      rfl
    simp only [overall_quality_score]
    rw [hlen, hsum]
    rw [if_pos (by norm_num)]
    simp only [pyRound2]
    have harg : ((20000 : ℕ) : ℚ) / ((6667 * 3 : ℕ) : ℚ) * 100 * 100 =
        200000000 / 20001 := by
      push_cast
      norm_num
    rw [harg]
    have hfloor : ⌊(200000000 : ℚ) / 20001⌋ = 9999 := by
      rw [Int.floor_eq_iff]
      constructor <;> norm_num
    simp only [pyRoundInt, hfloor]
    rw [if_neg (by push_cast; norm_num), if_pos (by push_cast; norm_num)]
    push_cast
    norm_num
  · intro hall
    have hmem : partialLead ∈ c8leads := by
      unfold c8leads
      exact List.mem_append_right _ (List.mem_singleton.2 rfl)
    have hcontra := hall partialLead hmem
    exact absurd hcontra (by decide)

/-! ## Run-level claims (C4, C5, C6, C7) -/

/-- C4 counterexample: a fully successful run with every stage enabled
attempts six stages, export included, yet appends only five audit rows —
none with stage `export` — refuting the claim that the export attempt
writes a PipelineRun row. -/
theorem C4_counterexample :
    (run_complete_pipeline cfgAll demoRunEnv "coffee shops" "Seattle" 5
        none none {}).attempted =
      ["scraping", "validation", "linkedin_enrichment", "research",
       "personalization", "export"] ∧
    ((run_complete_pipeline cfgAll demoRunEnv "coffee shops" "Seattle" 5
        none none {}).store.runs.map (fun r => r.stage)) =
      ["scraping", "validation", "linkedin_enrichment", "research",
       "personalization"] ∧
    resultIsOk (run_complete_pipeline cfgAll demoRunEnv "coffee shops"
        "Seattle" 5 none none {}).result = true ∧
    ¬ ∃ r ∈ (run_complete_pipeline cfgAll demoRunEnv "coffee shops"
        "Seattle" 5 none none {}).store.runs, r.stage = "export" := by
  decide

/-- C4 amended: every attempted stage writes exactly one PipelineRun row
EXCEPT export, which writes none: the rows appended by a run are, in
order, its attempted stages with `export` filtered out, and pre-existing
rows are untouched. -/
theorem C4_audit_rows (cfg : PipelineConfig) (env : RunEnv)
    (bt loc : String) (mr : Nat) (cn fe : Option String) (st0 : Store) :
    ((run_complete_pipeline cfg env bt loc mr cn fe st0).store.runs.drop
        st0.runs.length).map (fun r => r.stage) =
      (run_complete_pipeline cfg env bt loc mr cn fe st0).attempted.filter
        (fun s => s ≠ "export") ∧
    (run_complete_pipeline cfg env bt loc mr cn fe st0).store.runs.take
      st0.runs.length = st0.runs := by
  unfold run_complete_pipeline scrape_businesses
  dsimp only
  cases hs : env.scrape with
  | error e =>
    simp only [hs]
    constructor
    · simp [List.drop_left]
    · simp [List.take_left]
  | ok bs =>
    simp only [hs]
    by_cases hb : bs.isEmpty = true
    · simp only [hb, if_true]
      constructor
      · simp [List.drop_left]
      · simp [List.take_left]
    · simp only [hb, Bool.false_eq_true, if_false]
      obtain ⟨h1, h2⟩ := run_after_scrape_runs_seg cfg env env.freshCid bs
        (record_pipeline_run
          (update_campaign
            (create_campaign st0 env.freshCid
              (cn.getD (bt ++ " in " ++ loc)) bt loc mr fe)
            env.freshCid { status := some "running" })
          env.freshCid "scraping" "completed" none bs.length bs.length 0
          none)
      simp only [runs_record_pipeline_run, runs_update_campaign,
        runs_create_campaign] at h1 h2
      constructor
      · rw [h1]
        rw [List.append_assoc, List.drop_left]
        simp only [List.singleton_append, List.map_cons, mkRunRow_stage, h2]
        simp [List.filter_cons]
      · rw [h1]
        rw [List.append_assoc, List.take_left]

/-- C5 counterexample: calling run with empty business_type and location
is not rejected — it creates (and leaves) a Campaign row carrying the
empty inputs, so the call has a durable trace. -/
theorem C5_counterexample :
    (run_complete_pipeline cfgAll envEmptyScrape "" "" 25 none none
        {}).store.campaigns.length = 1 ∧
    ∃ c ∈ (run_complete_pipeline cfgAll envEmptyScrape "" "" 25 none none
        {}).store.campaigns, c.business_type = "" ∧ c.location = "" := by
  decide

/-- C5 amended: `run_complete_pipeline` performs no validation of
`business_type` or `location`; every call — empty or invalid inputs
included — creates exactly one Campaign row before any check can fire
(non-empty inputs are enforced only at the API boundary, outside run). -/
theorem C5_no_input_rejection (cfg : PipelineConfig) (env : RunEnv)
    (bt loc : String) (mr : Nat) (cn fe : Option String) (st0 : Store) :
    (run_complete_pipeline cfg env bt loc mr cn fe
        st0).store.campaigns.length = st0.campaigns.length + 1 := by
  unfold run_complete_pipeline scrape_businesses
  dsimp only
  cases hs : env.scrape with
  | error e => simp [hs]
  | ok bs =>
    simp only [hs]
    by_cases hb : bs.isEmpty = true
    · simp [hb]
    · simp only [hb, Bool.false_eq_true, if_false]
      rw [run_after_scrape_campaigns_length]
      simp

/-- C6: when the places search returns an empty list, run() raises
`No businesses found`, the campaign ends `failed` with that error
message, and the only audit row appended is the scrape stage's — no
later stage executes. -/
theorem C6_empty_scrape_fails (cfg : PipelineConfig) (env : RunEnv)
    (bt loc : String) (mr : Nat) (cn fe : Option String) (st0 : Store)
    (hfresh : ∀ c ∈ st0.campaigns, c.id ≠ env.freshCid)
    (hempty : env.scrape = .ok []) :
    (run_complete_pipeline cfg env bt loc mr cn fe st0).result =
      .error "No businesses found" ∧
    campaignErrView (run_complete_pipeline cfg env bt loc mr cn fe
        st0).store env.freshCid =
      some ("failed", some "No businesses found") ∧
    ((run_complete_pipeline cfg env bt loc mr cn fe st0).store.runs.drop
        st0.runs.length).map (fun r => r.stage) = ["scraping"] ∧
    (run_complete_pipeline cfg env bt loc mr cn fe st0).attempted =
      ["scraping"] := by
  unfold run_complete_pipeline scrape_businesses fail_run
  dsimp only
  simp only [hempty, List.isEmpty_nil, if_true]
  refine ⟨trivial, ?_, ?_, trivial⟩
  · rw [campaignErrView_update_campaign _ _ _ (by rfl)]
    simp only [campaignErrView_record_pipeline_run]
    rw [campaignErrView_update_campaign _ _ _ (by rfl)]
    rw [campaignErrView_create_campaign st0 env.freshCid
      (cn.getD (bt ++ " in " ++ loc)) bt loc mr fe hfresh]
    rfl
  · simp [List.drop_left]

/-- Witness for C6 on the empty store with a collaborator returning no
businesses. -/
theorem C6_empty_scrape_fails_witness :
    (run_complete_pipeline cfgAll envEmptyScrape "coffee shops" "Seattle"
        5 none none {}).result = .error "No businesses found" ∧
    campaignErrView (run_complete_pipeline cfgAll envEmptyScrape
        "coffee shops" "Seattle" 5 none none {}).store "campaign_x" =
      some ("failed", some "No businesses found") ∧
    ((run_complete_pipeline cfgAll envEmptyScrape "coffee shops" "Seattle"
        5 none none {}).store.runs.drop ([] : List RunRow).length).map
        (fun r => r.stage) = ["scraping"] ∧
    (run_complete_pipeline cfgAll envEmptyScrape "coffee shops" "Seattle"
        5 none none {}).attempted = ["scraping"] :=
  C6_empty_scrape_fails cfgAll envEmptyScrape "coffee shops" "Seattle" 5
    none none {} (by simp) rfl

/-- C7 counterexample: a run failing at the scrape stage moves its
campaign from `running` to the terminal status `failed`, yet
`completed_at` stays null — the failed transition never populates it,
refuting the claim that every terminal transition does. -/
theorem C7_counterexample :
    campaignPhase (run_complete_pipeline cfgAll envEmptyScrape
        "coffee shops" "Seattle" 5 none none {}).store "campaign_x" =
      some ("failed", none) := by
  decide

/-- C7 amended: `completed_at` is written exactly once, at the
`completed` transition; a campaign that terminates `failed` keeps
`completed_at` null (the failure handler writes only status and
error_message). -/
theorem C7_completed_at (cfg : PipelineConfig) (env : RunEnv)
    (bt loc : String) (mr : Nat) (cn fe : Option String) (st0 : Store)
    (hfresh : ∀ c ∈ st0.campaigns, c.id ≠ env.freshCid) :
    (∀ s, (run_complete_pipeline cfg env bt loc mr cn fe st0).result =
        .ok s →
      ∃ t, campaignPhase (run_complete_pipeline cfg env bt loc mr cn fe
          st0).store env.freshCid = some ("completed", some t)) ∧
    (∀ e, (run_complete_pipeline cfg env bt loc mr cn fe st0).result =
        .error e →
      campaignPhase (run_complete_pipeline cfg env bt loc mr cn fe
          st0).store env.freshCid = some ("failed", none)) := by
  have h0 : campaignPhase
      (update_campaign
        (create_campaign st0 env.freshCid (cn.getD (bt ++ " in " ++ loc))
          bt loc mr fe)
        env.freshCid { status := some "running" }) env.freshCid =
      some ("running", none) := by
    rw [campaignPhase_status_update]
    unfold campaignPhase
    rw [get_campaign_create_campaign st0 env.freshCid
      (cn.getD (bt ++ " in " ++ loc)) bt loc mr fe hfresh]
    rfl
  unfold run_complete_pipeline scrape_businesses
  dsimp only
  cases hs : env.scrape with
  | error e =>
    simp only [hs]
    constructor
    · intro s hs'
      cases hs'
    · intro e' he'
      rw [campaignPhase_fail_run]
      simp only [campaignPhase_record_pipeline_run]
      rw [h0]
      rfl
  | ok bs =>
    simp only [hs]
    by_cases hb : bs.isEmpty = true
    · simp only [hb, if_true]
      constructor
      · intro s hs'
        cases hs'
      · intro e' he'
        rw [campaignPhase_fail_run]
        simp only [campaignPhase_record_pipeline_run]
        rw [h0]
        rfl
    · simp only [hb, Bool.false_eq_true, if_false]
      obtain ⟨hfail, hok⟩ := run_after_scrape_phase cfg env env.freshCid bs
        (record_pipeline_run
          (update_campaign
            (create_campaign st0 env.freshCid
              (cn.getD (bt ++ " in " ++ loc)) bt loc mr fe)
            env.freshCid { status := some "running" })
          env.freshCid "scraping" "completed" none bs.length bs.length 0
          none)
      simp only [campaignPhase_record_pipeline_run, h0] at hfail hok
      constructor
      · intro s hs'
        obtain ⟨t, ht⟩ := hok s hs'
        refine ⟨t, ?_⟩
        rw [ht]
        rfl
      · intro e' he'
        rw [hfail e' he']
        rfl

/-- Witness for C7 on a concrete failing and a concrete succeeding run. -/
theorem C7_completed_at_witness :
    campaignPhase (run_complete_pipeline cfgAll envEmptyScrape
        "coffee shops" "Seattle" 5 none none {}).store "campaign_x" =
      some ("failed", none) ∧
    (∃ t, campaignPhase (run_complete_pipeline cfgAll demoRunEnv
        "coffee shops" "Seattle" 5 none none {}).store "campaign_x" =
      some ("completed", some t)) :=
  ⟨(C7_completed_at cfgAll envEmptyScrape "coffee shops" "Seattle" 5 none
      none {} (by simp)).2 "No businesses found" (by rfl),
   (C7_completed_at cfgAll demoRunEnv "coffee shops" "Seattle" 5 none
      none {} (by simp)).1
     { campaign_id := "campaign_x", status := "completed",
       total_leads := 1, validated_leads := 1, enriched_leads := 1,
       csv_export := "data/out.csv" } (by rfl)⟩

end LeadsGen
